import Mathlib

set_option maxHeartbeats 1600000

/-!
Shallow embedding of the scrap_back backend (src/app.py, src/database.py,
src/pokeapi.py, src/scraping.py) and verification of the specification
claims about its two-tier cache, scraper and HTTP endpoints.

The endpoints in src/app.py call the helper functions defined in src/app.py
itself (the module does not import database.py / pokeapi.py / scraping.py),
so the embedded definitions follow the src/app.py versions of
get_cached_dex, update_cached_dex, fetch_pokemon_details and
scrape_grynsoft_dex; the parallel copies in the other modules differ only
in extra validation that the running code never executes.

All effects of the Python code are made explicit: the wall clock is an
integer parameter (seconds; sub-second precision of timedelta.total_seconds
is immaterial at the 24h TTL granularity of the claims), the two database
tables are explicit maps passed in and returned, the outbound HTTP scraper
and the GraphQL client are oracle parameters describing what the network
would answer, and "the scraper was invoked" / "a GraphQL query was issued"
are explicit boolean observations set exactly on the code paths that
perform those calls.
-/

namespace ScrapBack

/-- Model of the Python/JSON value space flowing through the application:
None, bool, int, str, list and dict.  JSON objects always carry string
keys, so `pydict` is keyed by `String`; the one Python dict keyed by
arbitrary values (the comparison endpoint's id-keyed lookup) is modelled
separately as an association list outside this type.  Floats never reach
any value the claims speak about and are not modelled. -/
inductive PyVal where
  | pynone : PyVal
  | pybool (b : Bool) : PyVal
  | pyint (n : Int) : PyVal
  | pystr (s : String) : PyVal
  | pylist (xs : List PyVal) : PyVal
  | pydict (kvs : List (String × PyVal)) : PyVal

mutual

/-- Structural equality test on `PyVal`, modelling Python `==` on the
values the application compares (dict/set keys).  Python's numeric
cross-type equalities (True == 1) are irrelevant here: every key the code
compares is a string. -/
def pyEqb : PyVal → PyVal → Bool
  | .pynone, .pynone => true
  | .pybool a, .pybool b => a == b
  | .pyint a, .pyint b => a == b
  | .pystr a, .pystr b => a == b
  | .pylist a, .pylist b => pyEqbList a b
  | .pydict a, .pydict b => pyEqbKV a b
  | _, _ => false

/-- Pointwise equality test for lists of `PyVal`. -/
def pyEqbList : List PyVal → List PyVal → Bool
  | [], [] => true
  | a :: t1, b :: t2 => pyEqb a b && pyEqbList t1 t2
  | _, _ => false

/-- Pointwise equality test for string-keyed association lists of `PyVal`. -/
def pyEqbKV : List (String × PyVal) → List (String × PyVal) → Bool
  | [], [] => true
  | (k1, v1) :: t1, (k2, v2) :: t2 => k1 == k2 && pyEqb v1 v2 && pyEqbKV t1 t2
  | _, _ => false

end

/-- Python truthiness (`if x:`): None, False, 0, empty string/list/dict are
falsy, everything else truthy. -/
def pyTruthy : PyVal → Bool
  | .pynone => false
  | .pybool b => b
  | .pyint n => n != 0
  | .pystr s => !s.isEmpty
  | .pylist xs => !xs.isEmpty
  | .pydict kvs => !kvs.isEmpty

/-- First-match lookup in a string-keyed association list.  The dicts the
application builds have pairwise-distinct keys, for which first-match and
Python's lookup agree; a JSON text with duplicate object keys (where Python
keeps the last occurrence) never arises in any claim. -/
def strLookup : List (String × PyVal) → String → Option PyVal
  | [], _ => none
  | (k, v) :: rest, key => if k == key then some v else strLookup rest key

/-- Lookup in a `PyVal`-keyed association list (Python dict `.get`). -/
def pyKeyLookup : List (PyVal × PyVal) → PyVal → Option PyVal
  | [], _ => none
  | (k, v) :: rest, key => if pyEqb k key then some v else pyKeyLookup rest key

/-- Python subscript `item[key]` for a string key: succeeds only on a dict
that has the key; on any other value the KeyError/TypeError it raises is
modelled as `none`. -/
def pyGetKey (v : PyVal) (key : String) : Option PyVal :=
  match v with
  | .pydict kvs => strLookup kvs key
  | _ => none

/-- Membership test `key in d` for a Python dict value. -/
def pyHasKey (v : PyVal) (key : String) : Bool :=
  (pyGetKey v key).isSome

/-- Whitespace characters stripped by Python's `str.strip()` (ASCII part;
the pages scraped contain no exotic Unicode whitespace). -/
def isPyWs (c : Char) : Bool :=
  c == ' ' || c == '\t' || c == '\n' || c == '\r' || c == '\x0b' || c == '\x0c'

/-- Strip `isPyWs` characters from both ends of a character list. -/
def pyStripChars (cs : List Char) : List Char :=
  ((cs.dropWhile isPyWs).reverse.dropWhile isPyWs).reverse

/-- Python `str.strip()`. -/
def pyStrip (s : String) : String :=
  String.mk (pyStripChars s.data)

/-- Python `str.lstrip('#0')`: drop leading characters belonging to the
set of '#' or '0'. -/
def pyLstripHash0 (s : String) : String :=
  String.mk (s.data.dropWhile (fun c => c == '#' || c == '0'))

/-- Python `str.isdigit()` restricted to ASCII digits (the scraped ids are
ASCII): true iff the string is nonempty and all characters are digits. -/
def pyIsdigit (s : String) : Bool :=
  !s.data.isEmpty && s.data.all Char.isDigit

/-- Lowercasing of one ASCII character (Python `str.lower()`; the channel
and user names the application lowercases are ASCII). -/
def pyLowerChar (c : Char) : Char :=
  if 65 ≤ c.toNat && c.toNat ≤ 90 then Char.ofNat (c.toNat + 32) else c

/-- Python `str.lower()` (ASCII). -/
def pyLower (s : String) : String :=
  String.mk (s.data.map pyLowerChar)

/-- Numeric value of a list of ASCII digit characters. -/
def digitsToNat (ds : List Char) : Nat :=
  ds.foldl (fun a c => a * 10 + (c.toNat - 48)) 0

/-- Python `int(s)` on a string: strips whitespace, accepts an optional
sign followed by one or more digits, raises ValueError (`none`) otherwise.
(Digit-group underscores, which never occur in scraped ids, are omitted.) -/
def pyIntOfString (s : String) : Option Int :=
  match pyStripChars s.data with
  | [] => none
  | c :: rest =>
    if c == '-' then
      if !rest.isEmpty && rest.all Char.isDigit then some (-(digitsToNat rest : Int)) else none
    else if c == '+' then
      if !rest.isEmpty && rest.all Char.isDigit then some ((digitsToNat rest : Int)) else none
    else if (c :: rest).all Char.isDigit then some ((digitsToNat (c :: rest) : Int)) else none

/-- Python `int(x)` on an arbitrary value: ints pass through, bools map to
0/1, strings are parsed, everything else raises TypeError (`none`). -/
def pyToInt (v : PyVal) : Option Int :=
  match v with
  | .pyint n => some n
  | .pybool b => some (if b then 1 else 0)
  | .pystr s => pyIntOfString s
  | _ => none

/-! JSON parsing, modelling `json.loads`.  The parser is executable and
total via fuel (the input length bounds the recursion).  Floats and
`\uXXXX` escapes are not modelled; no value any claim touches involves
them. -/

/-- JSON insignificant whitespace. -/
def isJsonWs (c : Char) : Bool :=
  c == ' ' || c == '\t' || c == '\n' || c == '\r'

/-- Skip JSON whitespace. -/
def jpSkipWs (cs : List Char) : List Char :=
  cs.dropWhile isJsonWs

/-- Parse the remainder of a JSON string literal (after the opening
quote), returning its contents and the rest of the input. -/
def jpString : Nat → List Char → Option (String × List Char)
  | 0, _ => none
  | _, [] => none
  | fuel + 1, c :: rest =>
    if c == '"' then some ("", rest)
    else if c == '\\' then
      match rest with
      | e :: rest2 =>
        let ec : Option Char :=
          if e == '"' then some '"'
          else if e == '\\' then some '\\'
          else if e == '/' then some '/'
          else if e == 'n' then some '\n'
          else if e == 't' then some '\t'
          else if e == 'r' then some '\r'
          else none
        match ec with
        | some ch => (jpString fuel rest2).map (fun p => (String.mk (ch :: p.1.data), p.2))
        | none => none
      | [] => none
    else (jpString fuel rest).map (fun p => (String.mk (c :: p.1.data), p.2))

/-- Parse a JSON number (integers only; a fraction or exponent makes the
model reject, where Python would produce a float — no claim involves
float-valued JSON). -/
def jpNumber (cs : List Char) : Option (PyVal × List Char) :=
  let (neg, cs1) := match cs with
    | '-' :: r => (true, r)
    | _ => (false, cs)
  match cs1.takeWhile Char.isDigit with
  | [] => none
  | ds =>
    let rest := cs1.dropWhile Char.isDigit
    if ds.length > 1 && ds.head? == some '0' then none
    else
      match rest with
      | '.' :: _ => none
      | 'e' :: _ => none
      | 'E' :: _ => none
      | _ =>
        let n : Int := (digitsToNat ds : Int)
        some (.pyint (if neg then -n else n), rest)

mutual

/-- Parse one JSON value (with leading whitespace). -/
def jpValue : Nat → List Char → Option (PyVal × List Char)
  | 0, _ => none
  | fuel + 1, cs =>
    match jpSkipWs cs with
    | [] => none
    | c :: rest =>
      if c == '"' then (jpString fuel rest).map (fun p => (.pystr p.1, p.2))
      else if c == '[' then jpArrayItems fuel rest
      else if c == '\x7b' then jpObjectItems fuel rest
      else if c == 'n' then
        if rest.take 3 = ['u', 'l', 'l'] then some (.pynone, rest.drop 3) else none
      else if c == 't' then
        if rest.take 3 = ['r', 'u', 'e'] then some (.pybool true, rest.drop 3) else none
      else if c == 'f' then
        if rest.take 4 = ['a', 'l', 's', 'e'] then some (.pybool false, rest.drop 4) else none
      else jpNumber (c :: rest)

/-- Parse the items of a JSON array (after the opening bracket). -/
def jpArrayItems : Nat → List Char → Option (PyVal × List Char)
  | 0, _ => none
  | fuel + 1, cs =>
    match jpSkipWs cs with
    | ']' :: rest => some (.pylist [], rest)
    | _ =>
      match jpValue fuel cs with
      | none => none
      | some (v, rest1) =>
        match jpSkipWs rest1 with
        | ',' :: rest2 =>
          match jpArrayItems fuel rest2 with
          | some (.pylist vs, rest3) => some (.pylist (v :: vs), rest3)
          | _ => none
        | ']' :: rest2 => some (.pylist [v], rest2)
        | _ => none

/-- Parse the members of a JSON object (after the opening brace). -/
def jpObjectItems : Nat → List Char → Option (PyVal × List Char)
  | 0, _ => none
  | fuel + 1, cs =>
    match jpSkipWs cs with
    | '\x7d' :: rest => some (.pydict [], rest)
    | '"' :: rest =>
      match jpString fuel rest with
      | none => none
      | some (k, rest1) =>
        match jpSkipWs rest1 with
        | ':' :: rest2 =>
          match jpValue fuel rest2 with
          | none => none
          | some (v, rest3) =>
            match jpSkipWs rest3 with
            | ',' :: rest4 =>
              match jpObjectItems fuel rest4 with
              | some (.pydict kvs, rest5) => some (.pydict ((k, v) :: kvs), rest5)
              | _ => none
            | '\x7d' :: rest4 => some (.pydict [(k, v)], rest4)
            | _ => none
        | _ => none
    | _ => none

end

/-- Model of Python `json.loads`: parse the whole string as one JSON value
(allowing trailing whitespace); any leftover input or parse failure is the
JSONDecodeError case, `none`. -/
def jsonLoads (s : String) : Option PyVal :=
  match jpValue (s.length + 1) s.data with
  | some (v, rest) => if (jpSkipWs rest).isEmpty then some v else none
  | none => none

/-! The `user_dex_cache` table and the roster cache-aside helper
(src/app.py lines 209-313). -/

/-- A row of the `user_dex_cache` table: the `pokemon_list` JSONB column
(SQL NULL and JSON null both reach Python as None, i.e. `pynone`) and the
`last_updated` TIMESTAMPTZ column in epoch seconds (`none` models NULL,
which the code checks for even though the schema forbids it). -/
structure DexRow where
  pokemon_list : PyVal
  last_updated : Option Int

/-- The `user_dex_cache` table, keyed by the (canal, usuario) primary
key. -/
abbrev CacheMap : Type := String × String → Option DexRow

/-- The roster cache TTL, src/app.py line 24. -/
def USER_DEX_CACHE_TTL_SECONDS : Int := 24 * 60 * 60

/-- src/app.py `get_cached_dex` (lines 209-243): look up the row for the
lowercased pair; return None on miss, NULL columns, expiry, a string value
that fails `json.loads`, or a value that is neither str nor list; return
the parsed value on a fresh hit.  (This src/app.py version — the one
`get_or_scrape_user_dex_list` actually calls — returns whatever a stored
string parses to; the src/database.py copy additionally validates the
shape but is never called by the app.) -/
def get_cached_dex (rows : CacheMap) (now : Int) (canal_lower usuario_lower : String) : PyVal :=
  match rows (canal_lower, usuario_lower) with
  | none => .pynone
  | some row =>
    match row.pokemon_list, row.last_updated with
    | .pynone, _ => .pynone
    | _, none => .pynone
    | v, some ts =>
      if now - ts ≤ USER_DEX_CACHE_TTL_SECONDS then
        match v with
        | .pystr s => (jsonLoads s).getD .pynone
        | .pylist xs => .pylist xs
        | _ => .pynone
      else .pynone

/-- src/app.py `update_cached_dex` (lines 245-267): upsert of the row for
the lowercased pair with a fresh timestamp.  `json.dumps` of the list is
stored into the JSONB column, which postgres decodes again, so the stored
column value equals the list itself; every `PyVal` is JSON-serializable,
so the TypeError branch of the source is unreachable in the model. -/
def update_cached_dex (rows : CacheMap) (now : Int) (canal_lower usuario_lower : String)
    (pokemon_list : PyVal) : CacheMap :=
  fun k =>
    if k = (canal_lower, usuario_lower) then some ⟨pokemon_list, some now⟩ else rows k

/-- The check `isinstance(scrape_result, dict) and 'error' in scrape_result`
used by src/app.py lines 307 and 329. -/
def isErrorDict (v : PyVal) : Bool :=
  match v with
  | .pydict kvs => (strLookup kvs "error").isSome
  | _ => false

/-- Result of `get_or_scrape_user_dex_list`: the returned value, the
`user_dex_cache` table after the call, and whether `scrape_grynsoft_dex`
was invoked. -/
structure GosResult where
  result : PyVal
  rows : CacheMap
  scraped : Bool

/-- src/app.py `get_or_scrape_user_dex_list` (lines 299-313).  `scraper`
is the oracle for what `scrape_grynsoft_dex(canal_original,
usuario_original)` would return. -/
def get_or_scrape_user_dex_list (scraper : String → String → PyVal) (rows : CacheMap)
    (now : Int) (canal_lower usuario_lower canal_original usuario_original : String)
    (refresh : Bool) : GosResult :=
  let scraped_list :=
    if refresh then PyVal.pynone else get_cached_dex rows now canal_lower usuario_lower
  match scraped_list with
  | .pynone =>
    let scrape_result := scraper canal_original usuario_original
    if isErrorDict scrape_result then ⟨scrape_result, rows, true⟩
    else
      let rows' :=
        if pyTruthy scrape_result then
          update_cached_dex rows now canal_lower usuario_lower scrape_result
        else rows
      match scrape_result with
      | .pynone => ⟨.pylist [], rows', true⟩
      | v => ⟨v, rows', true⟩
  | v => ⟨v, rows, false⟩

/-! Lemmas about the roster cache lookup. -/

/-- A fresh row whose stored value is (or parses to) a list is returned by
`get_cached_dex`. -/
lemma get_cached_dex_hit (rows : CacheMap) (now : Int) (cl ul : String)
    (v : PyVal) (ts : Int) (xs : List PyVal)
    (hrow : rows (cl, ul) = some ⟨v, some ts⟩)
    (hfresh : now - ts ≤ USER_DEX_CACHE_TTL_SECONDS)
    (hparse : v = .pylist xs ∨ (∃ s, v = .pystr s ∧ jsonLoads s = some (.pylist xs))) :
    get_cached_dex rows now cl ul = .pylist xs := by
  rcases hparse with h | ⟨s, hs, hj⟩
  · subst h
    simp [get_cached_dex, hrow, hfresh]
  · subst hs
    simp [get_cached_dex, hrow, hfresh, hj]

/-- A missing row yields None. -/
lemma get_cached_dex_absent (rows : CacheMap) (now : Int) (cl ul : String)
    (hrow : rows (cl, ul) = none) :
    get_cached_dex rows now cl ul = .pynone := by
  simp [get_cached_dex, hrow]

/-- An expired row yields None, whatever its stored value. -/
lemma get_cached_dex_expired (rows : CacheMap) (now : Int) (cl ul : String)
    (pl : PyVal) (ts : Int)
    (hrow : rows (cl, ul) = some ⟨pl, some ts⟩)
    (hexp : USER_DEX_CACHE_TTL_SECONDS < now - ts) :
    get_cached_dex rows now cl ul = .pynone := by
  have hn : ¬ (now - ts ≤ USER_DEX_CACHE_TTL_SECONDS) := by omega
  cases pl <;> simp [get_cached_dex, hrow, hn]

/-- When the cache path yields None (miss, expiry or forced refresh), the
helper invokes the scraper. -/
lemma get_or_scrape_scraped_of_miss (scraper : String → String → PyVal) (rows : CacheMap)
    (now : Int) (cl ul co uo : String) (refresh : Bool)
    (hmiss : refresh = true ∨ get_cached_dex rows now cl ul = .pynone) :
    (get_or_scrape_user_dex_list scraper rows now cl ul co uo refresh).scraped = true := by
  have hpy : (if refresh then PyVal.pynone else get_cached_dex rows now cl ul) = .pynone := by
    rcases hmiss with h | h
    · simp [h]
    · cases refresh <;> simp [h]
  unfold get_or_scrape_user_dex_list
  rw [hpy]
  by_cases he : isErrorDict (scraper co uo) = true
  · simp [he]
  · simp only [Bool.not_eq_true] at he
    simp only [he, Bool.false_eq_true, if_false]
    cases scraper co uo <;> rfl

/-- When the cache path yields None and the scraper does not return an
error dict, the helper performs exactly the conditional upsert of the
source and forwards the scrape result. -/
lemma get_or_scrape_of_miss_success (scraper : String → String → PyVal) (rows : CacheMap)
    (now : Int) (cl ul co uo : String) (refresh : Bool) (xs : List PyVal)
    (hmiss : refresh = true ∨ get_cached_dex rows now cl ul = .pynone)
    (hres : scraper co uo = .pylist xs) :
    get_or_scrape_user_dex_list scraper rows now cl ul co uo refresh =
      ⟨.pylist xs,
        if xs.isEmpty then rows else update_cached_dex rows now cl ul (.pylist xs),
        true⟩ := by
  have hpy : (if refresh then PyVal.pynone else get_cached_dex rows now cl ul) = .pynone := by
    rcases hmiss with h | h
    · simp [h]
    · cases refresh <;> simp [h]
  unfold get_or_scrape_user_dex_list
  rw [hpy, hres]
  have herr : isErrorDict (.pylist xs) = false := rfl
  simp only [herr, Bool.false_eq_true, if_false, pyTruthy]
  rcases Bool.eq_false_or_eq_true xs.isEmpty with hxe | hxe <;> simp [hxe]

/-- A non-None cache result is returned as-is, without scraping and
without touching the table. -/
lemma get_or_scrape_of_hit (scraper : String → String → PyVal) (rows : CacheMap)
    (now : Int) (cl ul co uo : String) (xs : List PyVal)
    (hc : get_cached_dex rows now cl ul = .pylist xs) :
    get_or_scrape_user_dex_list scraper rows now cl ul co uo false =
      ⟨.pylist xs, rows, false⟩ := by
  unfold get_or_scrape_user_dex_list
  simp [hc]

/-- C1: with the force-refresh flag false, a cached row for the pair whose
age is at most the 24h TTL and whose stored value is a list (directly, or
a string parsing to a list) is returned without invoking the scraper and
without modifying the cache; when the row is absent, its age exceeds the
TTL, or the flag is true, the scraper is invoked. -/
theorem C1_roster_cache_hit_vs_rescrape (scraper : String → String → PyVal)
    (rows : CacheMap) (now : Int) (cl ul co uo : String) :
    (∀ (v : PyVal) (ts : Int) (xs : List PyVal),
      rows (cl, ul) = some ⟨v, some ts⟩ →
      now - ts ≤ USER_DEX_CACHE_TTL_SECONDS →
      (v = .pylist xs ∨ (∃ s, v = .pystr s ∧ jsonLoads s = some (.pylist xs))) →
      get_or_scrape_user_dex_list scraper rows now cl ul co uo false =
        ⟨.pylist xs, rows, false⟩)
    ∧ (∀ refresh : Bool,
      (refresh = true ∨ rows (cl, ul) = none ∨
        (∃ pl ts, rows (cl, ul) = some ⟨pl, some ts⟩ ∧
          USER_DEX_CACHE_TTL_SECONDS < now - ts)) →
      (get_or_scrape_user_dex_list scraper rows now cl ul co uo refresh).scraped = true) := by
  constructor
  · intro v ts xs hrow hfresh hparse
    exact get_or_scrape_of_hit scraper rows now cl ul co uo xs
      (get_cached_dex_hit rows now cl ul v ts xs hrow hfresh hparse)
  · intro refresh hmiss
    apply get_or_scrape_scraped_of_miss
    rcases hmiss with h | h | ⟨pl, ts, hrow, hexp⟩
    · exact Or.inl h
    · exact Or.inr (get_cached_dex_absent rows now cl ul h)
    · exact Or.inr (get_cached_dex_expired rows now cl ul pl ts hrow hexp)

/-- Witness for C1 at concrete inputs: a fresh row storing the JSON text
"[1]" is returned as the parsed list without scraping, and with an empty
table the scraper is invoked. -/
theorem C1_witness :
    ((fun k => if k = ("canal", "user") then some (⟨.pystr "[1]", some 0⟩ : DexRow)
        else none) : CacheMap) ("canal", "user") = some ⟨.pystr "[1]", some 0⟩
    ∧ (10 : Int) - 0 ≤ USER_DEX_CACHE_TTL_SECONDS
    ∧ jsonLoads "[1]" = some (.pylist [.pyint 1])
    ∧ get_or_scrape_user_dex_list (fun _ _ => .pydict [("error", .pystr "boom")])
        (fun k => if k = ("canal", "user") then some ⟨.pystr "[1]", some 0⟩ else none)
        10 "canal" "user" "canal" "user" false =
        ⟨.pylist [.pyint 1],
          (fun k => if k = ("canal", "user") then some ⟨.pystr "[1]", some 0⟩ else none),
          false⟩
    ∧ (get_or_scrape_user_dex_list (fun _ _ => .pydict [("error", .pystr "boom")])
        (fun _ => none) 10 "canal" "user" "canal" "user" false).scraped = true := by
  refine ⟨rfl, by decide, by rfl, ?_, ?_⟩
  · exact (C1_roster_cache_hit_vs_rescrape _ _ 10 "canal" "user" "canal" "user").1
      (.pystr "[1]") 0 [.pyint 1] rfl (by decide) (Or.inr ⟨"[1]", rfl, by rfl⟩)
  · exact (C1_roster_cache_hit_vs_rescrape _ _ 10 "canal" "user" "canal" "user").2
      false (Or.inr (Or.inl rfl))

/-- C2: whenever the cache path yields None (any scrape trigger) and the
scraper answers with an error dict, the helper returns exactly that error
value and the whole `user_dex_cache` table is left unchanged. -/
theorem C2_scrape_error_propagates_cache_untouched (scraper : String → String → PyVal)
    (rows : CacheMap) (now : Int) (cl ul co uo : String) (refresh : Bool)
    (hmiss : refresh = true ∨ get_cached_dex rows now cl ul = .pynone)
    (herr : isErrorDict (scraper co uo) = true) :
    get_or_scrape_user_dex_list scraper rows now cl ul co uo refresh =
      ⟨scraper co uo, rows, true⟩ := by
  have hpy : (if refresh then PyVal.pynone else get_cached_dex rows now cl ul) = .pynone := by
    rcases hmiss with h | h
    · simp [h]
    · cases refresh <;> simp [h]
  unfold get_or_scrape_user_dex_list
  rw [hpy]
  simp [herr]

/-- Witness for C2 at concrete inputs: a forced refresh with a scraper
timeout error returns the error dict and leaves the empty table empty. -/
theorem C2_witness :
    isErrorDict (.pydict [("error", .pystr "Timeout")]) = true
    ∧ get_or_scrape_user_dex_list (fun _ _ => .pydict [("error", .pystr "Timeout")])
        (fun _ => none) 0 "canal" "user" "Canal" "User" true =
        ⟨.pydict [("error", .pystr "Timeout")], (fun _ => none), true⟩ :=
  ⟨rfl, C2_scrape_error_propagates_cache_untouched _ _ 0 "canal" "user" "Canal" "User" true
    (Or.inl rfl) rfl⟩

/-- Counterexample to C3 as stated: the scraper succeeds with a list (the
empty one, e.g. a page with no obtained creatures), the scrape branch
runs, yet no cache row is upserted — the returned table is still the
empty map, because line 310 of src/app.py guards the upsert with Python
truthiness (`if scraped_list:`), which an empty list fails. -/
theorem C3_counterexample :
    get_or_scrape_user_dex_list (fun _ _ => .pylist []) (fun _ => none) 0
      "canal" "user" "canal" "user" false =
      ⟨.pylist [], (fun _ => none), true⟩ := by
  rfl

/-- C3 (amended): when the scraper is invoked and succeeds with a
non-empty list, the helper upserts the row for the lowercased pair,
fully replacing any previous value with the scraped list and the fresh
timestamp; when the scraper succeeds with an empty list, the cache is
left unchanged. -/
theorem C3_scrape_success_upserts (scraper : String → String → PyVal)
    (rows : CacheMap) (now : Int) (cl ul co uo : String) (refresh : Bool)
    (xs : List PyVal)
    (hmiss : refresh = true ∨ get_cached_dex rows now cl ul = .pynone)
    (hres : scraper co uo = .pylist xs) :
    (xs ≠ [] →
      get_or_scrape_user_dex_list scraper rows now cl ul co uo refresh =
        ⟨.pylist xs, update_cached_dex rows now cl ul (.pylist xs), true⟩
      ∧ update_cached_dex rows now cl ul (.pylist xs) (cl, ul) =
          some ⟨.pylist xs, some now⟩
      ∧ ∀ k, k ≠ (cl, ul) → update_cached_dex rows now cl ul (.pylist xs) k = rows k)
    ∧ (xs = [] →
      get_or_scrape_user_dex_list scraper rows now cl ul co uo refresh =
        ⟨.pylist [], rows, true⟩) := by
  constructor
  · intro hne
    have hxe : xs.isEmpty = false := by
      cases xs
      · exact absurd rfl hne
      · rfl
    refine ⟨?_, ?_, ?_⟩
    · have := get_or_scrape_of_miss_success scraper rows now cl ul co uo refresh xs hmiss hres
      rw [hxe] at this
      simpa using this
    · simp [update_cached_dex]
    · intro k hk
      simp [update_cached_dex, hk]
  · intro he
    subst he
    have := get_or_scrape_of_miss_success scraper rows now cl ul co uo refresh [] hmiss hres
    simpa using this

/-- Witness for C3 (amended) at concrete inputs: scraping a one-creature
roster into an empty cache stores the row under the lowercased pair with
the call's timestamp. -/
theorem C3_witness :
    (fun (_ : String) (_ : String) =>
        PyVal.pylist [.pydict [("id", .pystr "1"), ("shiny", .pybool false)]]) "Canal" "User" =
      .pylist [.pydict [("id", .pystr "1"), ("shiny", .pybool false)]]
    ∧ get_or_scrape_user_dex_list
        (fun _ _ => .pylist [.pydict [("id", .pystr "1"), ("shiny", .pybool false)]])
        (fun _ => none) 50 "canal" "user" "Canal" "User" false =
        ⟨.pylist [.pydict [("id", .pystr "1"), ("shiny", .pybool false)]],
          update_cached_dex (fun _ => none) 50 "canal" "user"
            (.pylist [.pydict [("id", .pystr "1"), ("shiny", .pybool false)]]),
          true⟩ :=
  ⟨rfl,
    ((C3_scrape_success_upserts
      (fun _ _ => .pylist [.pydict [("id", .pystr "1"), ("shiny", .pybool false)]])
      (fun _ => none) 50 "canal" "user" "Canal" "User" false
      [.pydict [("id", .pystr "1"), ("shiny", .pybool false)]]
      (Or.inr rfl) rfl).1 (by simp)).1⟩

/-! The HTML scraper, src/app.py `scrape_grynsoft_dex` (lines 271-295). -/

/-- One parsed HTML element of the scraped page: its class list, its `id`
attribute, and the text of its first `.Index` descendant (`none` when the
selector finds no such child). -/
structure HtmlElement where
  classes : List String
  idAttr : Option String
  indexText : Option String

/-- The CSS selection `.Pokemon:not(#unobtained)`: elements carrying the
class `Pokemon` whose id attribute is not `unobtained`. -/
def isSelected (e : HtmlElement) : Bool :=
  e.classes.contains "Pokemon" && e.idAttr != some "unobtained"

/-- One iteration's id/shiny extraction: the `.Index` text is stripped,
its leading '#'/'0' characters removed, and the result kept only if it is
all digits; the shiny flag is whether the element's id attribute equals
`shiny`.  `none` models the two `continue` branches. -/
def extractEntry (e : HtmlElement) : Option (String × Bool) :=
  match e.indexText with
  | none => none
  | some txt =>
    let pokemon_id_str := pyLstripHash0 (pyStrip txt)
    if pyIsdigit pokemon_id_str then
      some (pokemon_id_str, e.idAttr == some "shiny")
    else none

/-- The scrape loop over the selected elements, carrying the `seen_ids`
set (as the list of ids already emitted). -/
def scrapeAux : List HtmlElement → List String → List (String × Bool)
  | [], _ => []
  | e :: rest, seen =>
    match extractEntry e with
    | none => scrapeAux rest seen
    | some (i, sh) =>
      if i ∈ seen then scrapeAux rest seen
      else (i, sh) :: scrapeAux rest (i :: seen)

/-- The deduplicated (id, shiny) list scraped from a page. -/
def scrapeItems (page : List HtmlElement) : List (String × Bool) :=
  scrapeAux (page.filter isSelected) []

/-- The extracted entries of a page before deduplication. -/
def rawItems (page : List HtmlElement) : List (String × Bool) :=
  (page.filter isSelected).filterMap extractEntry

/-- The dict `{'id': ..., 'shiny': ...}` appended for one kept entry. -/
def itemDict (p : String × Bool) : PyVal :=
  .pydict [("id", .pystr p.1), ("shiny", .pybool p.2)]

/-- Network-level outcome of the page fetch inside `scrape_grynsoft_dex`:
a parsed page, or one of the three exception classes the source
distinguishes (`HTTPError` raised by `raise_for_status` is a
`RequestException` and lands in the network-error branch of the src/app.py
version). -/
inductive ScrapeOutcome where
  | page (elements : List HtmlElement)
  | timeout
  | requestError
  | unexpected

/-- The scraped URL, src/app.py line 273. -/
def scrapeUrl (canal_original usuario_original : String) : String :=
  "https://grynsoft.com/spos-app/?c=" ++ canal_original ++ "&u=" ++ usuario_original

/-- src/app.py `scrape_grynsoft_dex` (lines 271-295): on success the list
of deduplicated entry dicts, otherwise the error dict of the matching
except branch. -/
def scrape_grynsoft_dex (outcome : ScrapeOutcome)
    (canal_original usuario_original : String) : PyVal :=
  match outcome with
  | .page els => .pylist ((scrapeItems els).map itemDict)
  | .timeout =>
      .pydict [("error", .pystr ("Timeout ao raspar " ++ scrapeUrl canal_original usuario_original))]
  | .requestError =>
      .pydict [("error",
        .pystr ("Erro de rede/HTTP ao raspar " ++ scrapeUrl canal_original usuario_original))]
  | .unexpected => .pydict [("error", .pystr "Erro inesperado no scraping")]

/-- Every entry the loop emits has an id outside the seen set it started
with. -/
lemma scrapeAux_id_not_seen (els : List HtmlElement) (seen : List String) :
    ∀ p ∈ scrapeAux els seen, p.1 ∉ seen := by
  induction els generalizing seen with
  | nil => intro p hp; simp [scrapeAux] at hp
  | cons e rest ih =>
    intro p hp
    rw [scrapeAux] at hp
    cases hext : extractEntry e with
    | none =>
      rw [hext] at hp
      exact ih seen p hp
    | some q =>
      obtain ⟨i, sh⟩ := q
      rw [hext] at hp
      dsimp only at hp
      by_cases hmem : i ∈ seen
      · rw [if_pos hmem] at hp
        exact ih seen p hp
      · rw [if_neg hmem] at hp
        rcases List.mem_cons.mp hp with h | h
        · subst h; exact hmem
        · intro hcon
          exact ih (i :: seen) p h (List.mem_cons_of_mem i hcon)

/-- The emitted list never repeats an id. -/
lemma scrapeAux_pairwise (els : List HtmlElement) (seen : List String) :
    (scrapeAux els seen).Pairwise (fun a b => a.1 ≠ b.1) := by
  induction els generalizing seen with
  | nil => simp [scrapeAux]
  | cons e rest ih =>
    rw [scrapeAux]
    cases hext : extractEntry e with
    | none => exact ih seen
    | some q =>
      obtain ⟨i, sh⟩ := q
      dsimp only
      by_cases hmem : i ∈ seen
      · rw [if_pos hmem]; exact ih seen
      · rw [if_neg hmem]
        refine List.Pairwise.cons ?_ (ih (i :: seen))
        intro b hb
        have := scrapeAux_id_not_seen rest (i :: seen) b hb
        intro hcon
        exact this (by simp [hcon.symm])

/-- Characterization of which entry survives for a given id: the entries
the loop emits with id `i` are exactly the first raw occurrence of `i`
(none if `i` was already seen). -/
lemma scrapeAux_filter_eq (els : List HtmlElement) (seen : List String) (i : String) :
    (scrapeAux els seen).filter (fun p => p.1 == i) =
      (if i ∈ seen then []
       else ((els.filterMap extractEntry).find? (fun p => p.1 == i)).toList) := by
  induction els generalizing seen with
  | nil => by_cases h : i ∈ seen <;> simp [scrapeAux, h]
  | cons e rest ih =>
    rw [scrapeAux]
    cases hext : extractEntry e with
    | none =>
      rw [List.filterMap_cons_none hext]
      exact ih seen
    | some q =>
      obtain ⟨i0, sh⟩ := q
      rw [List.filterMap_cons_some hext]
      dsimp only
      by_cases hmem : i0 ∈ seen
      · rw [if_pos hmem, ih seen]
        by_cases hi : i ∈ seen
        · simp [hi]
        · have hne : (i0 == i) = false := by
            simp only [beq_eq_false_iff_ne, ne_eq]
            intro h; subst h; exact hi hmem
          simp [hi, List.find?, hne]
      · rw [if_neg hmem]
        by_cases hii : i0 = i
        · subst hii
          have hi : i0 ∉ seen := hmem
          rw [List.filter_cons_of_pos (by simp), ih (i0 :: seen)]
          simp [hi, List.find?]
        · have hne : (i0 == i) = false := by simp [hii]
          rw [List.filter_cons_of_neg (by simp [hii]), ih (i0 :: seen)]
          have hmm : (i ∈ i0 :: seen) ↔ (i ∈ seen) := by
            rw [List.mem_cons]
            constructor
            · rintro (h | h)
              · exact absurd h.symm hii
              · exact h
            · exact Or.inr
          by_cases hi : i ∈ seen
          · simp [hi, hmm.mpr hi]
          · have : i ∉ i0 :: seen := fun h => hi (hmm.mp h)
            simp [hi, this, List.find?, hne]

/-- C6: the list `scrape_grynsoft_dex` returns for a page contains no two
entries with the same id, and for each id the surviving entry is exactly
the first extracted occurrence of that id on the page. -/
theorem C6_scraper_dedup_first_occurrence (els : List HtmlElement)
    (canal_original usuario_original : String) :
    scrape_grynsoft_dex (.page els) canal_original usuario_original =
      .pylist ((scrapeItems els).map itemDict)
    ∧ (scrapeItems els).Pairwise (fun a b => a.1 ≠ b.1)
    ∧ ((scrapeItems els).map itemDict).Pairwise
        (fun a b => pyGetKey a "id" ≠ pyGetKey b "id")
    ∧ ∀ i : String,
        (scrapeItems els).filter (fun p => p.1 == i) =
          ((rawItems els).find? (fun p => p.1 == i)).toList := by
  refine ⟨rfl, scrapeAux_pairwise _ [], ?_, ?_⟩
  · refine List.Pairwise.map itemDict ?_ (scrapeAux_pairwise (els.filter isSelected) [])
    intro a b hab
    show pyGetKey (itemDict a) "id" ≠ pyGetKey (itemDict b) "id"
    have ha : pyGetKey (itemDict a) "id" = some (.pystr a.1) := rfl
    have hb : pyGetKey (itemDict b) "id" = some (.pystr b.1) := rfl
    rw [ha, hb]
    intro hcon
    exact hab (PyVal.pystr.inj (Option.some.inj hcon))
  · intro i
    have h := scrapeAux_filter_eq (els.filter isSelected) [] i
    simpa [scrapeItems, rawItems] using h

/-! The `pokemon` detail cache and `fetch_pokemon_details`
(src/app.py lines 100-205). -/

/-- A row of the `pokemon` table (id is the map key): TEXT columns and
JSONB columns as the Python values psycopg2 hands back (`pynone` for
NULL). -/
structure PokemonRow where
  name : PyVal
  stats : PyVal
  total_base_stats : PyVal
  types : PyVal
  image : PyVal
  shiny_image : PyVal

/-- The `pokemon` table, keyed by the INTEGER primary key. -/
abbrev PokemonTable : Type := Int → Option PokemonRow

/-- One pokemon as returned inside `result["pokemon_v2_pokemon"][0]` by
the GraphQL API: stat rows as (stat name, base_stat) in response order,
type names, and the `pokemon_v2_pokemonsprites` rows (each a dict, of
which only the "sprites" member is read). -/
structure ApiPokemon where
  id : Int
  name : String
  statsList : List (String × Int)
  typesList : List String
  spritesData : List (List (String × PyVal))

/-- Outcome of `client.execute` for one id: an exception, an empty or
pokemon-less result, or response data. -/
inductive ApiResult where
  | apiError
  | apiEmpty
  | apiData (d : ApiPokemon)

/-- Environment of a `fetch_pokemon_details` call: whether the module's
GraphQL client initialized (`client is None` check), the API oracle, and
whether the best-effort cache INSERT succeeds (false models the caught
psycopg2.Error). -/
structure FetchEnv where
  clientOk : Bool
  api : Int → ApiResult
  insertOk : Bool

/-- Cache-hit processing of the `stats` column (src/app.py lines
121-123): a string is `json.loads`-parsed (empty string gives an empty
dict, a parse failure invalidates the hit, modelled as `none`), a dict
passes through, anything else becomes an empty dict. -/
def parseStatsVal : PyVal → Option PyVal
  | .pystr s => if s.isEmpty then some (.pydict []) else jsonLoads s
  | .pydict kvs => some (.pydict kvs)
  | _ => some (.pydict [])

/-- Cache-hit processing of the `types` column (src/app.py lines
124-126), analogous with lists. -/
def parseTypesVal : PyVal → Option PyVal
  | .pystr s => if s.isEmpty then some (.pylist []) else jsonLoads s
  | .pylist xs => some (.pylist xs)
  | _ => some (.pylist [])

/-- One assignment `d[k] = v` of the stats dict comprehension: a later
value for an existing key replaces it in place, a new key is appended. -/
def dictUpsertInt (kvs : List (String × Int)) (k : String) (v : Int) : List (String × Int) :=
  if kvs.any (fun p => p.1 == k) then
    kvs.map (fun p => if p.1 == k then (k, v) else p)
  else kvs ++ [(k, v)]

/-- The dict comprehension building the stats map from the API stat rows
(src/app.py line 166). -/
def buildStatsDict (l : List (String × Int)) : List (String × Int) :=
  l.foldl (fun acc p => dictUpsertInt acc p.1 p.2) []

/-- Outcome of the sprite-JSON processing (src/app.py lines 169-178): the
sprites dict, or the uncaught AttributeError raised by `sprites.get` when
a sprites string parses to a non-dict (which the outer handler turns into
a None return). -/
inductive SpritesOutcome where
  | ok (kvs : List (String × PyVal))
  | crash

/-- Sprite extraction from the first `pokemon_v2_pokemonsprites` row:
`.get("sprites", "\x7b\x7d")`, then a string is parsed (parse failure is
swallowed, leaving an empty dict), a dict passes through, and any other
value leaves the empty dict. -/
def computeSprites (sd : List (List (String × PyVal))) : SpritesOutcome :=
  match sd with
  | [] => .ok []
  | first :: _ =>
    match (strLookup first "sprites").getD (.pystr "\x7b\x7d") with
    | .pystr s =>
      match jsonLoads s with
      | some (.pydict kvs) => .ok kvs
      | some _ => .crash
      | none => .ok []
    | .pydict kvs => .ok kvs
    | _ => .ok []

/-- The detail record `fetch_pokemon_details` returns. -/
structure Details where
  id : Int
  name : PyVal
  stats : PyVal
  total_base_stats : PyVal
  types : PyVal
  image : PyVal
  shiny_image : PyVal

/-- The record computed from API data: stats dict (later duplicate stat
names win), derived total as the sum of the stats-dict values, type-name
list, and the two sprite URLs extracted with `.get` (None when absent). -/
def apiDetails (d : ApiPokemon) (spr : List (String × PyVal)) : Details :=
  let statsKV := buildStatsDict d.statsList
  ⟨d.id, .pystr d.name,
    .pydict (statsKV.map (fun p => (p.1, PyVal.pyint p.2))),
    .pyint ((statsKV.map (fun p => p.2)).sum),
    .pylist (d.typesList.map PyVal.pystr),
    (strLookup spr "front_default").getD .pynone,
    (strLookup spr "front_shiny").getD .pynone⟩

/-- The row the INSERT stores for a computed record.  `json.dumps(stats)`
and `json.dumps(types)` are written into JSONB columns, which postgres
decodes again, so the stored column values equal the dict/list values
themselves. -/
def rowOfDetails (det : Details) : PokemonRow :=
  ⟨det.name, det.stats, det.total_base_stats, det.types, det.image, det.shiny_image⟩

/-- Result of a `fetch_pokemon_details` call: the returned value, the
`pokemon` table afterwards, and whether a GraphQL query was issued. -/
structure FetchResult where
  result : Option Details
  table : PokemonTable
  apiCalled : Bool

/-- The API branch of `fetch_pokemon_details` (src/app.py lines 144-195):
query the API; on failure or empty data return None; otherwise compute
the record, attempt the `ON CONFLICT (id) DO NOTHING` insert (keyed by
the response's id; an existing row is kept, an insert error is swallowed)
and return the computed record. -/
def fetchFromApi (fenv : FetchEnv) (table : PokemonTable) (pokemon_id : Int) : FetchResult :=
  match fenv.api pokemon_id with
  | .apiError => ⟨none, table, true⟩
  | .apiEmpty => ⟨none, table, true⟩
  | .apiData d =>
    match computeSprites d.spritesData with
    | .crash => ⟨none, table, true⟩
    | .ok spr =>
      let det := apiDetails d spr
      let table' : PokemonTable :=
        if fenv.insertOk then
          fun j =>
            if j = d.id then
              match table d.id with
              | some r => some r
              | none => some (rowOfDetails det)
            else table j
        else table
      ⟨some det, table', true⟩

/-- src/app.py `fetch_pokemon_details` (lines 100-205): None when the
GraphQL client is unavailable; otherwise a cache hit whose stats/types
columns process successfully is returned without any API call, and a
miss (or a hit invalidated by a JSON parse failure) falls through to the
API branch. -/
def fetch_pokemon_details (fenv : FetchEnv) (table : PokemonTable) (pokemon_id : Int) :
    FetchResult :=
  if fenv.clientOk = false then ⟨none, table, false⟩
  else
    match table pokemon_id with
    | some row =>
      match parseStatsVal row.stats, parseTypesVal row.types with
      | some stats_data, some types_data =>
        ⟨some ⟨pokemon_id, row.name, stats_data, row.total_base_stats, types_data,
          row.image, row.shiny_image⟩, table, false⟩
      | _, _ => fetchFromApi fenv table pokemon_id
    | none => fetchFromApi fenv table pokemon_id

/-- The API branch always issues the GraphQL query. -/
lemma fetchFromApi_apiCalled (fenv : FetchEnv) (table : PokemonTable) (i : Int) :
    (fetchFromApi fenv table i).apiCalled = true := by
  unfold fetchFromApi
  split
  · rfl
  · rfl
  · split
    · rfl
    · rfl

/-- The API branch leaves the table unchanged whenever it returns None. -/
lemma fetchFromApi_none_table_unchanged (fenv : FetchEnv) (t : PokemonTable) (i : Int)
    (h : (fetchFromApi fenv t i).result = none) :
    (fetchFromApi fenv t i).table = t := by
  unfold fetchFromApi at h ⊢
  split at h
  · rfl
  · rfl
  · split at h
    · rfl
    · simp at h

/-- A fetch that returns None leaves the table unchanged. -/
lemma fetch_none_table_unchanged (fenv : FetchEnv) (table : PokemonTable) (i : Int)
    (h : (fetch_pokemon_details fenv table i).result = none) :
    (fetch_pokemon_details fenv table i).table = table := by
  unfold fetch_pokemon_details at h ⊢
  by_cases hc : fenv.clientOk = false
  · rw [if_pos hc]
  · rw [if_neg hc] at h ⊢
    generalize hti : table i = ti at h ⊢
    cases ti with
    | none => exact fetchFromApi_none_table_unchanged fenv table i h
    | some row =>
      dsimp only at h ⊢
      generalize hps : parseStatsVal row.stats = ps at h ⊢
      generalize hpt : parseTypesVal row.types = pt at h ⊢
      cases ps with
      | none =>
        cases pt with
        | none => exact fetchFromApi_none_table_unchanged fenv table i h
        | some td => exact fetchFromApi_none_table_unchanged fenv table i h
      | some sd =>
        cases pt with
        | none => exact fetchFromApi_none_table_unchanged fenv table i h
        | some td => simp at h

/-- An initialized client never satisfies the `client is None` guard. -/
lemma clientOk_cond {fenv : FetchEnv} (h : fenv.clientOk = true) :
    ¬ (fenv.clientOk = false) := by
  rw [h]
  exact fun hc => Bool.noConfusion hc

/-- Counterexample to C4 as stated: a `pokemon` row for id 7 exists, but
its `stats` column holds a string that is not valid JSON, so the cache
hit is invalidated (src/app.py lines 127-130) and a GraphQL call is
issued for id 7 anyway. -/
theorem C4_counterexample :
    (fun j : Int => if j = 7 then
        some (⟨.pystr "squirtle", .pystr "not json", .pyint 314,
          .pystr "[\"water\"]", .pynone, .pynone⟩ : PokemonRow)
      else none) 7 =
      some ⟨.pystr "squirtle", .pystr "not json", .pyint 314,
        .pystr "[\"water\"]", .pynone, .pynone⟩
    ∧ (fetch_pokemon_details ⟨true, (fun _ => .apiError), true⟩
        (fun j => if j = 7 then
            some ⟨.pystr "squirtle", .pystr "not json", .pyint 314,
              .pystr "[\"water\"]", .pynone, .pynone⟩
          else none)
        7).apiCalled = true :=
  ⟨rfl, rfl⟩

/-- C4 (amended): once a `pokemon` row for the id exists and its
stats/types columns process successfully (already-parsed dict/list, or a
serialized string that `json.loads` accepts), `fetch_pokemon_details`
returns the record parsed from that row, issues no GraphQL call and
leaves the table unchanged; when a stored string column fails to parse,
the hit is invalidated and a GraphQL call is issued for that id. -/
theorem C4_detail_cache_hit (fenv : FetchEnv) (table : PokemonTable) (i : Int)
    (row : PokemonRow)
    (hclient : fenv.clientOk = true)
    (hrow : table i = some row) :
    (∀ sd td, parseStatsVal row.stats = some sd → parseTypesVal row.types = some td →
      fetch_pokemon_details fenv table i =
        ⟨some ⟨i, row.name, sd, row.total_base_stats, td, row.image, row.shiny_image⟩,
          table, false⟩)
    ∧ ((parseStatsVal row.stats = none ∨ parseTypesVal row.types = none) →
      (fetch_pokemon_details fenv table i).apiCalled = true) := by
  constructor
  · intro sd td hs ht
    unfold fetch_pokemon_details
    rw [if_neg (clientOk_cond hclient), hrow]
    dsimp only
    rw [hs, ht]
  · intro hbad
    unfold fetch_pokemon_details
    rw [if_neg (clientOk_cond hclient), hrow]
    dsimp only
    cases hps : parseStatsVal row.stats with
    | none =>
      cases hpt : parseTypesVal row.types <;> exact fetchFromApi_apiCalled fenv table i
    | some sd =>
      cases hpt : parseTypesVal row.types with
      | none => exact fetchFromApi_apiCalled fenv table i
      | some td =>
        rcases hbad with hs | ht
        · rw [hps] at hs
          exact Option.noConfusion hs
        · rw [hpt] at ht
          exact Option.noConfusion ht

/-- Witness for C4 at concrete inputs: a row whose stats column is a
serialized JSON object and whose types column is an already-parsed list
is returned without an API call; a row whose stats column is a broken
string triggers the API. -/
theorem C4_witness :
    (fun j : Int => if j = 7 then
        some (⟨.pystr "squirtle", .pystr "\x7b\"hp\": 44\x7d", .pyint 314,
          .pylist [.pystr "water"], .pystr "u1", .pystr "u2"⟩ : PokemonRow)
      else none) 7 =
      some ⟨.pystr "squirtle", .pystr "\x7b\"hp\": 44\x7d", .pyint 314,
        .pylist [.pystr "water"], .pystr "u1", .pystr "u2"⟩
    ∧ parseStatsVal (.pystr "\x7b\"hp\": 44\x7d") = some (.pydict [("hp", .pyint 44)])
    ∧ parseTypesVal (.pylist [.pystr "water"]) = some (.pylist [.pystr "water"])
    ∧ fetch_pokemon_details ⟨true, (fun _ => .apiError), true⟩
        (fun j => if j = 7 then
            some ⟨.pystr "squirtle", .pystr "\x7b\"hp\": 44\x7d", .pyint 314,
              .pylist [.pystr "water"], .pystr "u1", .pystr "u2"⟩
          else none) 7 =
        ⟨some ⟨7, .pystr "squirtle", .pydict [("hp", .pyint 44)], .pyint 314,
            .pylist [.pystr "water"], .pystr "u1", .pystr "u2"⟩,
          (fun j => if j = 7 then
            some ⟨.pystr "squirtle", .pystr "\x7b\"hp\": 44\x7d", .pyint 314,
              .pylist [.pystr "water"], .pystr "u1", .pystr "u2"⟩
          else none), false⟩
    ∧ (fetch_pokemon_details ⟨true, (fun _ => .apiError), true⟩
        (fun j => if j = 9 then
            some ⟨.pynone, .pystr "oops", .pynone, .pynone, .pynone, .pynone⟩
          else none) 9).apiCalled = true := by
  refine ⟨rfl, by rfl, rfl, ?_, ?_⟩
  · exact (C4_detail_cache_hit ⟨true, (fun _ => .apiError), true⟩ _ 7
      ⟨.pystr "squirtle", .pystr "\x7b\"hp\": 44\x7d", .pyint 314,
        .pylist [.pystr "water"], .pystr "u1", .pystr "u2"⟩ rfl rfl).1
      (.pydict [("hp", .pyint 44)]) (.pylist [.pystr "water"]) (by rfl) rfl
  · exact (C4_detail_cache_hit ⟨true, (fun _ => .apiError), true⟩ _ 9
      ⟨.pynone, .pystr "oops", .pynone, .pynone, .pynone, .pynone⟩ rfl rfl).2
      (Or.inl (by rfl))

/-- C5: on a detail-cache miss for an id for which the API returns data
(with processable sprites), `fetch_pokemon_details` returns the computed
record — with the derived total and the sprite URLs extracted into
`apiDetails` — for either value of the insert success flag, issues the
GraphQL call, and the insert-or-ignore never overwrites any existing
row. -/
theorem C5_detail_miss_api_success (api : Int → ApiResult) (table : PokemonTable)
    (i : Int) (d : ApiPokemon) (spr : List (String × PyVal)) (insertOk : Bool)
    (hmiss : table i = none) (hapi : api i = .apiData d)
    (hspr : computeSprites d.spritesData = .ok spr) :
    (fetch_pokemon_details ⟨true, api, insertOk⟩ table i).result = some (apiDetails d spr)
    ∧ (fetch_pokemon_details ⟨true, api, insertOk⟩ table i).apiCalled = true
    ∧ (∀ j r, table j = some r →
        (fetch_pokemon_details ⟨true, api, insertOk⟩ table i).table j = some r) := by
  have hred : fetch_pokemon_details ⟨true, api, insertOk⟩ table i =
      fetchFromApi ⟨true, api, insertOk⟩ table i := by
    unfold fetch_pokemon_details
    rw [if_neg (clientOk_cond rfl), hmiss]
  rw [hred]
  unfold fetchFromApi
  dsimp only
  rw [hapi]
  dsimp only
  rw [hspr]
  dsimp only
  refine ⟨rfl, rfl, ?_⟩
  intro j r hjr
  cases insertOk with
  | false => exact hjr
  | true =>
    show (if j = d.id then
        match table d.id with
        | some r0 => some r0
        | none => some (rowOfDetails (apiDetails d spr))
      else table j) = some r
    by_cases hj : j = d.id
    · subst hj
      rw [if_pos rfl, hjr]
    · rw [if_neg hj]
      exact hjr

/-- Witness for C5 at concrete inputs: a miss for id 1 against an API
answer with two stats, two types and a serialized sprites object returns
the computed record for both insert outcomes and keeps the pre-existing
row for id 3 intact. -/
theorem C5_witness :
    ((fun j : Int => if j = 3 then
        some (⟨.pystr "venusaur", .pydict [], .pyint 0, .pylist [], .pynone, .pynone⟩ :
          PokemonRow)
      else none) : PokemonTable) 1 = none
    ∧ (fun j : Int => if j = 1 then
        ApiResult.apiData ⟨1, "bulbasaur", [("hp", 45), ("attack", 49)],
          ["grass", "poison"],
          [[("sprites",
            .pystr "\x7b\"front_default\": \"u1\", \"front_shiny\": \"u2\"\x7d")]]⟩
      else .apiError) 1 =
      .apiData ⟨1, "bulbasaur", [("hp", 45), ("attack", 49)], ["grass", "poison"],
        [[("sprites",
          .pystr "\x7b\"front_default\": \"u1\", \"front_shiny\": \"u2\"\x7d")]]⟩
    ∧ computeSprites [[("sprites",
        .pystr "\x7b\"front_default\": \"u1\", \"front_shiny\": \"u2\"\x7d")]] =
        .ok [("front_default", .pystr "u1"), ("front_shiny", .pystr "u2")]
    ∧ (∀ insertOk : Bool,
        (fetch_pokemon_details
          ⟨true,
            (fun j => if j = 1 then
              ApiResult.apiData ⟨1, "bulbasaur", [("hp", 45), ("attack", 49)],
                ["grass", "poison"],
                [[("sprites",
                  .pystr "\x7b\"front_default\": \"u1\", \"front_shiny\": \"u2\"\x7d")]]⟩
            else .apiError), insertOk⟩
          (fun j => if j = 3 then
            some ⟨.pystr "venusaur", .pydict [], .pyint 0, .pylist [], .pynone, .pynone⟩
          else none) 1).result =
        some (apiDetails
          ⟨1, "bulbasaur", [("hp", 45), ("attack", 49)], ["grass", "poison"],
            [[("sprites",
              .pystr "\x7b\"front_default\": \"u1\", \"front_shiny\": \"u2\"\x7d")]]⟩
          [("front_default", .pystr "u1"), ("front_shiny", .pystr "u2")]))
    ∧ (fetch_pokemon_details
        ⟨true,
          (fun j => if j = 1 then
            ApiResult.apiData ⟨1, "bulbasaur", [("hp", 45), ("attack", 49)],
              ["grass", "poison"],
              [[("sprites",
                .pystr "\x7b\"front_default\": \"u1\", \"front_shiny\": \"u2\"\x7d")]]⟩
          else .apiError), true⟩
        (fun j => if j = 3 then
          some ⟨.pystr "venusaur", .pydict [], .pyint 0, .pylist [], .pynone, .pynone⟩
        else none) 1).table 3 =
      some ⟨.pystr "venusaur", .pydict [], .pyint 0, .pylist [], .pynone, .pynone⟩ := by
  refine ⟨rfl, rfl, by rfl, ?_, ?_⟩
  · intro insertOk
    exact (C5_detail_miss_api_success _ _ 1 _ _ insertOk rfl rfl (by rfl)).1
  · exact (C5_detail_miss_api_success _ _ 1 _ _ true rfl rfl (by rfl)).2.2 3 _ rfl

/-! The /api/pokemons endpoint (src/app.py lines 317-354). -/

/-- The query parameters of a request: the three the endpoint reads, and
whatever other parameters the request carries (pagination, filter, sort,
anything — the code never reads them). -/
structure HttpRequest where
  canal : Option String
  usuario : Option String
  refresh : Option String
  extra : List (String × String)

/-- Observable outcome of one request: a response with a status code and
a JSON body, or an unhandled exception escaping the handler. -/
inductive HttpResult where
  | resp (status : Nat) (body : PyVal)
  | crash

/-- The full environment of an endpoint call: scraper oracle, roster
cache table, wall clock, detail-fetch environment and detail table. -/
structure AppEnv where
  scraper : String → String → PyVal
  rows : CacheMap
  now : Int
  fetchEnv : FetchEnv
  table : PokemonTable

/-- Python `x.lower() if x else None` applied to an optional request
parameter: missing or empty gives None. -/
def pyLowerNonEmpty (o : Option String) : Option String :=
  match o with
  | some c => if c.isEmpty then none else some (pyLower c)
  | none => none

/-- The refresh flag: `request.args.get('refresh', 'false').lower() ==
'true'`. -/
def refreshFlagOf (o : Option String) : Bool :=
  pyLower (o.getD "false") == "true"

/-- The response entry built for one roster item (src/app.py lines
339-349 — identical construction at lines 406-419 of the comparison
endpoint): stats/types coerced to dict/list, and the image selected from
the shiny image exactly when the item's shiny value is truthy. -/
def mkEntry (shiny_status : PyVal) (details : Details) : PyVal :=
  let final_stats := match details.stats with
    | .pydict kvs => PyVal.pydict kvs
    | _ => .pydict []
  let final_types := match details.types with
    | .pylist xs => PyVal.pylist xs
    | _ => .pylist []
  .pydict [("id", .pyint details.id), ("name", details.name), ("shiny", shiny_status),
    ("stats", final_stats), ("total_base_stats", details.total_base_stats),
    ("types", final_types),
    ("image", if pyTruthy shiny_status then details.shiny_image else details.image)]

/-- The body of one iteration of the result loop with its per-item
try/except: a missing or non-dict item, an unparseable id, a missing
shiny key, or a None detail fetch all yield no entry (the caught
ValueError/KeyError/TypeError); the detail table is threaded through the
fetch. -/
def processItem (fenv : FetchEnv) (table : PokemonTable) (item : PyVal) :
    Option PyVal × PokemonTable :=
  match pyGetKey item "id" with
  | none => (none, table)
  | some idv =>
    match pyToInt idv with
    | none => (none, table)
    | some pokemon_id =>
      match pyGetKey item "shiny" with
      | none => (none, table)
      | some shiny_status =>
        let f := fetch_pokemon_details fenv table pokemon_id
        match f.result with
        | some details => (some (mkEntry shiny_status details), f.table)
        | none => (none, f.table)

/-- The result loop over the roster items. -/
def processList (fenv : FetchEnv) (table : PokemonTable) :
    List PyVal → List PyVal × PokemonTable
  | [] => ([], table)
  | item :: rest =>
    match processItem fenv table item with
    | (some e, t2) =>
      let pr := processList fenv t2 rest
      (e :: pr.1, pr.2)
    | (none, t2) => processList fenv t2 rest

/-- The tail of the endpoint after the roster is obtained (src/app.py
lines 329-354): an error dict comes back as a 500, a list is processed
item by item into a 200 JSON array.  A non-error dict or a string would
be iterated as its keys/characters, each failing the per-item subscript
with a caught TypeError, giving an empty 200 array; any other value
raises an uncaught TypeError at the `for` statement. -/
def listResponse (fenv : FetchEnv) (table : PokemonTable) (list_result : PyVal) :
    HttpResult :=
  if isErrorDict list_result then .resp 500 list_result
  else
    match list_result with
    | .pylist items => .resp 200 (.pylist (processList fenv table items).1)
    | .pydict _ => .resp 200 (.pylist [])
    | .pystr _ => .resp 200 (.pylist [])
    | _ => .crash

/-- src/app.py `get_pokemons` (lines 317-354).  Missing or empty canal or
usuario give a 400 error dict (its message text is not claim-relevant and
abbreviated here); otherwise the roster is obtained through the
cache-aside helper and processed.  Note that nothing in the body reads
`req.extra`: the endpoint has no pagination, filtering or sorting. -/
def get_pokemons (env : AppEnv) (req : HttpRequest) : HttpResult :=
  match pyLowerNonEmpty req.canal, pyLowerNonEmpty req.usuario with
  | some canal_lower, some usuario_lower =>
    listResponse env.fetchEnv env.table
      (get_or_scrape_user_dex_list env.scraper env.rows env.now canal_lower usuario_lower
        (req.canal.getD "") (req.usuario.getD "") (refreshFlagOf req.refresh)).result
  | _, _ => .resp 400 (.pydict [("error", .pystr "canal e usuario obrigatorios")])

/-- Every entry the loop emits is an `mkEntry` of some shiny value and
detail record. -/
lemma processItem_some_shape (fenv : FetchEnv) (t : PokemonTable) (item : PyVal)
    (e : PyVal) (t2 : PokemonTable)
    (h : processItem fenv t item = (some e, t2)) :
    ∃ sh d, e = mkEntry sh d := by
  unfold processItem at h
  split at h
  · simp at h
  · split at h
    · simp at h
    · split at h
      · simp at h
      · rename_i sh hsh
        dsimp only at h
        split at h
        · rename_i details hdet
          refine ⟨sh, details, ?_⟩
          have := congrArg Prod.fst h
          simpa using this.symm
        · simp at h

/-- Every entry of the processed list is an `mkEntry`. -/
lemma processList_mem_shape (fenv : FetchEnv) (items : List PyVal) :
    ∀ (t : PokemonTable), ∀ e ∈ (processList fenv t items).1, ∃ sh d, e = mkEntry sh d := by
  induction items with
  | nil => intro t e he; simp [processList] at he
  | cons item rest ih =>
    intro t e he
    rw [processList] at he
    rcases hpi : processItem fenv t item with ⟨o, t2⟩
    rw [hpi] at he
    cases o with
    | some e0 =>
      dsimp only at he
      rcases List.mem_cons.mp he with h | h
      · obtain ⟨sh, d, hd⟩ := processItem_some_shape fenv t item e0 t2 hpi
        exact ⟨sh, d, h.trans hd⟩
      · exact ih t2 e h
    | none => exact ih t2 e he

/-- Any list body in a `get_pokemons` response consists of `mkEntry`
values. -/
lemma get_pokemons_resp_list_shape (env : AppEnv) (req : HttpRequest)
    (status : Nat) (entries : List PyVal)
    (h : get_pokemons env req = .resp status (.pylist entries)) :
    ∀ e ∈ entries, ∃ sh d, e = mkEntry sh d := by
  unfold get_pokemons at h
  split at h
  · unfold listResponse at h
    split at h
    · rename_i herr
      injection h with h1 h2
      rw [h2] at herr
      simp [isErrorDict] at herr
    · split at h
      · rename_i items heq
        injection h with h1 h2
        injection h2 with h3
        intro e he
        rw [← h3] at he
        exact processList_mem_shape env.fetchEnv items env.table e he
      · injection h with h1 h2
        injection h2 with h3
        rw [← h3]
        intro e he
        simp at he
      · injection h with h1 h2
        injection h2 with h3
        rw [← h3]
        intro e he
        simp at he
      · exact HttpResult.noConfusion h
  · injection h with h1 h2
    exact PyVal.noConfusion h2

/-- With valid parameters and a successfully obtained roster list, the
endpoint answers 200 with the processed list. -/
lemma get_pokemons_success (env : AppEnv) (req : HttpRequest) (c u : String)
    (items : List PyVal)
    (hc : req.canal = some c) (hce : c.isEmpty = false)
    (hu : req.usuario = some u) (hue : u.isEmpty = false)
    (hres : (get_or_scrape_user_dex_list env.scraper env.rows env.now (pyLower c) (pyLower u)
        c u (refreshFlagOf req.refresh)).result = .pylist items) :
    get_pokemons env req =
      .resp 200 (.pylist (processList env.fetchEnv env.table items).1) := by
  unfold get_pokemons
  rw [hc, hu]
  unfold pyLowerNonEmpty
  dsimp only
  rw [hce, hue]
  simp only [Bool.false_eq_true, if_false]
  show listResponse env.fetchEnv env.table
      (get_or_scrape_user_dex_list env.scraper env.rows env.now (pyLower c) (pyLower u)
        c u (refreshFlagOf req.refresh)).result = _
  rw [hres]
  rfl

/-- Concrete detail table used by the endpoint witnesses: rows for ids 1
and 2 with already-parsed columns. -/
def sampleTable : PokemonTable := fun j =>
  if j = 1 then
    some ⟨.pystr "bulbasaur", .pydict [("hp", .pyint 45)], .pyint 45,
      .pylist [.pystr "grass"], .pystr "img1", .pystr "shiny1"⟩
  else if j = 2 then
    some ⟨.pystr "ivysaur", .pydict [("hp", .pyint 60)], .pyint 60,
      .pylist [.pystr "grass"], .pystr "img2", .pystr "shiny2"⟩
  else none

/-- Concrete two-item roster used by the endpoint witnesses. -/
def sampleItems : List PyVal :=
  [.pydict [("id", .pystr "1"), ("shiny", .pybool false)],
   .pydict [("id", .pystr "2"), ("shiny", .pybool true)]]

/-- Concrete endpoint environment used by the endpoint witnesses: the
scraper yields `sampleItems`, caches start empty, details come from
`sampleTable`. -/
def sampleEnv : AppEnv :=
  ⟨(fun _ _ => .pylist sampleItems), (fun _ => none), 0,
   ⟨true, (fun _ => .apiError), true⟩, sampleTable⟩

/-- Concrete request carrying pagination/sort query parameters, which the
endpoint never reads. -/
def sampleReq : HttpRequest :=
  ⟨some "C", some "U", none, [("page", "1"), ("page_size", "1"), ("sort", "id")]⟩

/-- A roster item whose id does not parse as an int. -/
def sampleBadItem : PyVal := .pydict [("id", .pystr "abc"), ("shiny", .pybool false)]

/-- Endpoint environment whose scraper yields a roster starting with the
unparseable item. -/
def sampleEnvBad : AppEnv :=
  ⟨(fun _ _ => .pylist (sampleBadItem :: sampleItems)), (fun _ => none), 0,
   ⟨true, (fun _ => .apiError), true⟩, sampleTable⟩

/-- Counterexample to C7 as stated: a request carrying pagination
parameters (page=1, page_size=1, sort=id) against a two-item roster is
answered with the plain two-element JSON array — no pagination envelope,
no total-pages metadata, no truncation to the requested page size, and no
type filter or sort is ever applied (nothing in src/app.py lines 317-354
reads those parameters or builds SQL from a column map). -/
theorem C7_counterexample :
    sampleReq.extra = [("page", "1"), ("page_size", "1"), ("sort", "id")]
    ∧ get_pokemons sampleEnv sampleReq =
      .resp 200 (.pylist
        [mkEntry (.pybool false)
          ⟨1, .pystr "bulbasaur", .pydict [("hp", .pyint 45)], .pyint 45,
            .pylist [.pystr "grass"], .pystr "img1", .pystr "shiny1"⟩,
         mkEntry (.pybool true)
          ⟨2, .pystr "ivysaur", .pydict [("hp", .pyint 60)], .pyint 60,
            .pylist [.pystr "grass"], .pystr "img2", .pystr "shiny2"⟩]) :=
  ⟨rfl, rfl⟩

/-- C7 (amended): the query endpoint ignores every query parameter other
than canal, usuario and refresh — pagination, filter and sort parameters
do not change the response — and a successful request returns the
complete unpaginated list of processed roster entries. -/
theorem C7_no_pagination_params_ignored (env : AppEnv)
    (canal usuario refresh : Option String) (extra1 extra2 : List (String × String)) :
    get_pokemons env ⟨canal, usuario, refresh, extra1⟩ =
      get_pokemons env ⟨canal, usuario, refresh, extra2⟩
    ∧ (∀ (c u : String) (items : List PyVal),
        canal = some c → c.isEmpty = false →
        usuario = some u → u.isEmpty = false →
        (get_or_scrape_user_dex_list env.scraper env.rows env.now (pyLower c) (pyLower u)
          c u (refreshFlagOf refresh)).result = .pylist items →
        get_pokemons env ⟨canal, usuario, refresh, extra1⟩ =
          .resp 200 (.pylist (processList env.fetchEnv env.table items).1)) := by
  refine ⟨rfl, ?_⟩
  intro c u items hc hce hu hue hres
  exact get_pokemons_success env ⟨canal, usuario, refresh, extra1⟩ c u items hc hce hu hue hres

/-- Witness for C7 (amended) at concrete inputs: two requests differing
only in their pagination parameters get the same response, and the sample
request returns the full processed list. -/
theorem C7_witness :
    get_pokemons sampleEnv ⟨some "C", some "U", none, [("page", "1")]⟩ =
      get_pokemons sampleEnv ⟨some "C", some "U", none, [("page", "2"), ("limit", "50")]⟩
    ∧ get_pokemons sampleEnv ⟨some "C", some "U", none, [("page", "1")]⟩ =
      .resp 200 (.pylist
        (processList sampleEnv.fetchEnv sampleEnv.table sampleItems).1) :=
  ⟨(C7_no_pagination_params_ignored sampleEnv (some "C") (some "U") none
      [("page", "1")] [("page", "2"), ("limit", "50")]).1,
   (C7_no_pagination_params_ignored sampleEnv (some "C") (some "U") none
      [("page", "1")] []).2 "C" "U" sampleItems rfl rfl rfl rfl rfl⟩

/-- C8: the endpoint is a function of the (explicit) environment and
request alone — two executions over the same scraper result, caches, API
and clock return the same response — and in every entry of a returned
JSON list the image field is the detail record's shiny image exactly when
the entry's shiny value is truthy, and the regular image otherwise. -/
theorem C8_deterministic_shiny_image_selection (env : AppEnv) (req : HttpRequest)
    (r1 r2 : HttpResult)
    (h1 : r1 = get_pokemons env req) (h2 : r2 = get_pokemons env req) :
    r1 = r2
    ∧ (∀ (status : Nat) (entries : List PyVal),
        r1 = .resp status (.pylist entries) →
        ∀ e ∈ entries, ∃ sh d, e = mkEntry sh d
          ∧ pyGetKey e "shiny" = some sh
          ∧ pyGetKey e "image" =
              some (if pyTruthy sh then d.shiny_image else d.image)) := by
  subst h1
  subst h2
  refine ⟨rfl, ?_⟩
  intro status entries hres e he
  obtain ⟨sh, d, hed⟩ := get_pokemons_resp_list_shape env req status entries hres e he
  subst hed
  exact ⟨sh, d, rfl, rfl, rfl⟩

/-- Witness for C8 at concrete inputs: the sample scenario produces a
fixed two-entry list, and its first entry (shiny false) carries the
regular image. -/
theorem C8_witness :
    get_pokemons sampleEnv sampleReq = get_pokemons sampleEnv sampleReq
    ∧ (∃ sh d,
        mkEntry (.pybool false)
          ⟨1, .pystr "bulbasaur", .pydict [("hp", .pyint 45)], .pyint 45,
            .pylist [.pystr "grass"], .pystr "img1", .pystr "shiny1"⟩ = mkEntry sh d
        ∧ pyGetKey (mkEntry (.pybool false)
            ⟨1, .pystr "bulbasaur", .pydict [("hp", .pyint 45)], .pyint 45,
              .pylist [.pystr "grass"], .pystr "img1", .pystr "shiny1"⟩) "shiny" = some sh
        ∧ pyGetKey (mkEntry (.pybool false)
            ⟨1, .pystr "bulbasaur", .pydict [("hp", .pyint 45)], .pyint 45,
              .pylist [.pystr "grass"], .pystr "img1", .pystr "shiny1"⟩) "image" =
            some (if pyTruthy sh then d.shiny_image else d.image)) :=
  ⟨(C8_deterministic_shiny_image_selection sampleEnv sampleReq
      (get_pokemons sampleEnv sampleReq) (get_pokemons sampleEnv sampleReq) rfl rfl).1,
   (C8_deterministic_shiny_image_selection sampleEnv sampleReq
      (get_pokemons sampleEnv sampleReq) (get_pokemons sampleEnv sampleReq) rfl rfl).2
      200
      [mkEntry (.pybool false)
        ⟨1, .pystr "bulbasaur", .pydict [("hp", .pyint 45)], .pyint 45,
          .pylist [.pystr "grass"], .pystr "img1", .pystr "shiny1"⟩,
       mkEntry (.pybool true)
        ⟨2, .pystr "ivysaur", .pydict [("hp", .pyint 60)], .pyint 60,
          .pylist [.pystr "grass"], .pystr "img2", .pystr "shiny2"⟩]
      rfl _ (List.mem_cons_self _ _)⟩

/-- C9: a roster item whose id is missing or unparseable, or whose detail
fetch returns None, contributes no entry and leaves the detail table
untouched — the loop simply moves on — and a request whose roster was
obtained successfully is still answered 200 with the processed remainder. -/
theorem C9_detail_failures_silently_omitted (fenv : FetchEnv) (t : PokemonTable)
    (item : PyVal) (rest : List PyVal) :
    ((pyGetKey item "id" = none
      ∨ (∃ idv, pyGetKey item "id" = some idv ∧ pyToInt idv = none)
      ∨ (∃ idv pid sh, pyGetKey item "id" = some idv ∧ pyToInt idv = some pid ∧
          pyGetKey item "shiny" = some sh ∧
          (fetch_pokemon_details fenv t pid).result = none)) →
      processItem fenv t item = (none, t)
      ∧ (processList fenv t (item :: rest)).1 = (processList fenv t rest).1)
    ∧ (∀ (env : AppEnv) (req : HttpRequest) (c u : String) (items : List PyVal),
        req.canal = some c → c.isEmpty = false →
        req.usuario = some u → u.isEmpty = false →
        (get_or_scrape_user_dex_list env.scraper env.rows env.now (pyLower c) (pyLower u)
          c u (refreshFlagOf req.refresh)).result = .pylist items →
        get_pokemons env req =
          .resp 200 (.pylist (processList env.fetchEnv env.table items).1)) := by
  constructor
  · intro hfail
    have hpi : processItem fenv t item = (none, t) := by
      unfold processItem
      rcases hfail with h | ⟨idv, hidv, hint⟩ | ⟨idv, pid, sh, hidv, hint, hsh, hfetch⟩
      · rw [h]
      · rw [hidv]
        dsimp only
        rw [hint]
      · rw [hidv]
        dsimp only
        rw [hint]
        dsimp only
        rw [hsh]
        dsimp only
        rw [hfetch, fetch_none_table_unchanged fenv t pid hfetch]
    refine ⟨hpi, ?_⟩
    rw [processList, hpi]
  · intro env req c u items hc hce hu hue hres
    exact get_pokemons_success env req c u items hc hce hu hue hres

/-- Witness for C9 at concrete inputs: the item with id "abc" is skipped
without touching the table, and the endpoint still answers 200 with the
processed remainder of the bad-item roster. -/
theorem C9_witness :
    pyToInt (.pystr "abc") = none
    ∧ processItem ⟨true, (fun _ => .apiError), true⟩ sampleTable sampleBadItem =
        (none, sampleTable)
    ∧ (processList ⟨true, (fun _ => .apiError), true⟩ sampleTable
        (sampleBadItem :: sampleItems)).1 =
      (processList ⟨true, (fun _ => .apiError), true⟩ sampleTable sampleItems).1
    ∧ get_pokemons sampleEnvBad sampleReq =
        .resp 200 (.pylist
          (processList sampleEnvBad.fetchEnv sampleEnvBad.table
            (sampleBadItem :: sampleItems)).1) := by
  refine ⟨rfl, ?_, ?_, ?_⟩
  · exact ((C9_detail_failures_silently_omitted ⟨true, (fun _ => .apiError), true⟩
      sampleTable sampleBadItem sampleItems).1
      (Or.inr (Or.inl ⟨.pystr "abc", rfl, rfl⟩))).1
  · exact ((C9_detail_failures_silently_omitted ⟨true, (fun _ => .apiError), true⟩
      sampleTable sampleBadItem sampleItems).1
      (Or.inr (Or.inl ⟨.pystr "abc", rfl, rfl⟩))).2
  · exact (C9_detail_failures_silently_omitted ⟨true, (fun _ => .apiError), true⟩
      sampleTable sampleBadItem sampleItems).2 sampleEnvBad sampleReq "C" "U"
      (sampleBadItem :: sampleItems) rfl rfl rfl rfl rfl

/-! The /api/compare_dex endpoint (src/app.py lines 358-431). -/

/-- The query parameters of a comparison request. -/
structure CompareRequest where
  canal : Option String
  usuario1 : Option String
  usuario2 : Option String

/-- Whether a Python value can be a dict key or set element (unhashable
list/dict keys raise TypeError). -/
def pyHashable : PyVal → Bool
  | .pylist _ => false
  | .pydict _ => false
  | _ => true

/-- One dict-comprehension assignment: an existing equal key is replaced
in place (later wins), a new key is appended. -/
def pyDictUpsert (kvs : List (PyVal × PyVal)) (k v : PyVal) : List (PyVal × PyVal) :=
  if kvs.any (fun p => pyEqb p.1 k) then
    kvs.map (fun p => if pyEqb p.1 k then (k, v) else p)
  else kvs ++ [(k, v)]

/-- The comprehension `{item['id']: item for item in list2_result}`
(src/app.py line 391); a missing id subscript or an unhashable id is an
uncaught exception (`none`). -/
def buildUser2Dict : List PyVal → List (PyVal × PyVal) → Option (List (PyVal × PyVal))
  | [], acc => some acc
  | item :: rest, acc =>
    match pyGetKey item "id" with
    | none => none
    | some idv =>
      if pyHashable idv then buildUser2Dict rest (pyDictUpsert acc idv item) else none

/-- Set insertion by Python equality. -/
def pySetAdd (acc : List PyVal) (v : PyVal) : List PyVal :=
  if acc.any (fun w => pyEqb w v) then acc else acc ++ [v]

/-- The comprehension `{item['id'] for item in list1_result}` (src/app.py
line 392). -/
def buildIdSet : List PyVal → List PyVal → Option (List PyVal)
  | [], acc => some acc
  | item :: rest, acc =>
    match pyGetKey item "id" with
    | none => none
    | some idv => if pyHashable idv then buildIdSet rest (pySetAdd acc idv) else none

/-- The iterable view of a value taken by a `for` loop / comprehension:
lists yield their items, strings their characters, dicts their keys;
anything else raises TypeError (`none`). -/
def pyIterItems : PyVal → Option (List PyVal)
  | .pylist xs => some xs
  | .pystr s => some (s.data.map (fun ch => PyVal.pystr (String.mk [ch])))
  | .pydict kvs => some (kvs.map (fun p => PyVal.pystr p.1))
  | _ => none

/-- The integer sort key `key=int` (total function; `sortedByInt` first
checks that every element actually converts). -/
def pyIntKey (v : PyVal) : Int :=
  (pyToInt v).getD 0

/-- `sorted(..., key=int)`: stable sort by the integer value; `int`
raising on any element aborts the call (`none`).  Python's set iteration
order is unspecified; the model starts from the first-occurrence key
order, which determines the sorted output whenever the integer keys are
pairwise distinct (the case of every claim). -/
def sortedByInt (l : List PyVal) : Option (List PyVal) :=
  if l.all (fun v => (pyToInt v).isSome) then
    some (l.insertionSort (fun a b => pyIntKey a ≤ pyIntKey b))
  else none

/-- The loop over the sorted difference (src/app.py lines 401-421): fetch
details for each id (threading the detail table), skip the id when the
fetch returns None; take usuario2's item for the id and use its shiny
value (False when the item is missing or falsy; a missing 'shiny' key is
a caught KeyError that skips the id after the fetch). -/
def compareLoop (fenv : FetchEnv) (table : PokemonTable)
    (user2_dict : List (PyVal × PyVal)) : List PyVal → List PyVal × PokemonTable
  | [] => ([], table)
  | idv :: rest =>
    match pyToInt idv with
    | none => compareLoop fenv table user2_dict rest
    | some pokemon_id =>
      let f := fetch_pokemon_details fenv table pokemon_id
      match f.result with
      | none => compareLoop fenv f.table user2_dict rest
      | some details =>
        match pyKeyLookup user2_dict idv with
        | some original_item =>
          if pyTruthy original_item then
            match pyGetKey original_item "shiny" with
            | some shiny_status =>
              let pr := compareLoop fenv f.table user2_dict rest
              (mkEntry shiny_status details :: pr.1, pr.2)
            | none => compareLoop fenv f.table user2_dict rest
          else
            let pr := compareLoop fenv f.table user2_dict rest
            (mkEntry (.pybool false) details :: pr.1, pr.2)
        | none =>
          let pr := compareLoop fenv f.table user2_dict rest
          (mkEntry (.pybool false) details :: pr.1, pr.2)

/-- The body of `compare_dex` after parameter validation (src/app.py
lines 381-431): obtain both rosters (the second call sees the cache rows
left by the first), 500 on either error, then build the id-keyed lookup
for usuario2 and the id set for usuario1, compute the difference, sort it
numerically and fetch full details (error payload texts are abbreviated;
they are not claim-relevant). -/
def compareMain (env : AppEnv) (c u1 u2 : String) : HttpResult :=
  let gos1 := get_or_scrape_user_dex_list env.scraper env.rows env.now
    (pyLower c) (pyLower u1) c u1 false
  if isErrorDict gos1.result then
    .resp 500 (.pydict [("error_user1", .pystr "falha ao obter dados")])
  else
    let gos2 := get_or_scrape_user_dex_list env.scraper gos1.rows env.now
      (pyLower c) (pyLower u2) c u2 false
    if isErrorDict gos2.result then
      .resp 500 (.pydict [("error_user2", .pystr "falha ao obter dados")])
    else
      match pyIterItems gos2.result, pyIterItems gos1.result with
      | some items2, some items1 =>
        match buildUser2Dict items2 [], buildIdSet items1 [] with
        | some user2_dict, some set1_ids =>
          let diff := (user2_dict.map Prod.fst).filter
            (fun v => !(set1_ids.any (fun w => pyEqb w v)))
          match sortedByInt diff with
          | none => .crash
          | some sorted_diff =>
            .resp 200 (.pydict
              [("canal", .pystr c), ("usuario_base", .pystr u1),
               ("usuario_comparado", .pystr u2),
               ("pokemon_que_faltam",
                 .pylist (compareLoop env.fetchEnv env.table user2_dict sorted_diff).1)])
        | _, _ => .crash
      | _, _ => .crash

/-- src/app.py `compare_dex` (lines 358-431): 400 when a parameter is
missing or empty or the two lowercased users coincide, otherwise the
comparison body. -/
def compare_dex (env : AppEnv) (req : CompareRequest) : HttpResult :=
  match req.canal, req.usuario1, req.usuario2 with
  | some c, some u1, some u2 =>
    if c.isEmpty || u1.isEmpty || u2.isEmpty then
      .resp 400 (.pydict [("error", .pystr "parametros obrigatorios")])
    else if pyLower u1 == pyLower u2 then
      .resp 400 (.pydict [("error", .pystr "usuarios nao podem ser iguais")])
    else compareMain env c u1 u2
  | _, _, _ => .resp 400 (.pydict [("error", .pystr "parametros obrigatorios")])

/-- The id-keyed lookup the comparison builds for a well-formed roster. -/
def user2DictOf (r2 : List (String × Bool)) : List (PyVal × PyVal) :=
  r2.map (fun p => (PyVal.pystr p.1, itemDict p))

/-- The id difference list for well-formed rosters: usuario2's ids (in
first-occurrence order) that usuario1 does not have. -/
def diffIdsOf (r1 r2 : List (String × Bool)) : List PyVal :=
  (r2.map (fun p => PyVal.pystr p.1)).filter
    (fun v => !(r1.any (fun p => pyEqb (.pystr p.1) v)))

/-- The numerically sorted id difference for well-formed rosters. -/
def sortedDiffOf (r1 r2 : List (String × Bool)) : List PyVal :=
  (diffIdsOf r1 r2).insertionSort (fun a b => pyIntKey a ≤ pyIntKey b)

/-! Lemmas supporting the comparison-endpoint claim. -/

/-- `pyEqb` on two string values is string equality. -/
lemma pyEqb_pystr_beq (a b : String) : pyEqb (.pystr a) (.pystr b) = (a == b) := rfl

/-- Equality test against a string value decides equality with it. -/
lemma pyEqb_pystr_iff (s : String) (y : PyVal) : pyEqb (.pystr s) y = true ↔ y = .pystr s := by
  cases y with
  | pystr t =>
    rw [pyEqb_pystr_beq, beq_iff_eq]
    exact ⟨fun h => by rw [h], fun h => (PyVal.pystr.inj h).symm⟩
  | pynone => simp [pyEqb]
  | pybool b => simp [pyEqb]
  | pyint n => simp [pyEqb]
  | pylist xs => simp [pyEqb]
  | pydict kvs => simp [pyEqb]

/-- Symmetric version of `pyEqb_pystr_iff`. -/
lemma pyEqb_pystr_iff' (s : String) (y : PyVal) : pyEqb y (.pystr s) = true ↔ y = .pystr s := by
  cases y with
  | pystr t =>
    rw [pyEqb_pystr_beq, beq_iff_eq]
    exact ⟨fun h => by rw [h], fun h => PyVal.pystr.inj h⟩
  | pynone => simp [pyEqb]
  | pybool b => simp [pyEqb]
  | pyint n => simp [pyEqb]
  | pylist xs => simp [pyEqb]
  | pydict kvs => simp [pyEqb]

/-- A digit character is not equal to any non-digit character. -/
lemma not_beq_of_isDigit (c w : Char) (h : c.isDigit = true) (hw : w.isDigit = false) :
    (c == w) = false := by
  cases hc : c == w
  · rfl
  · rw [beq_iff_eq] at hc
    subst hc
    rw [h] at hw
    exact Bool.noConfusion hw

/-- A digit character is not Python whitespace. -/
lemma isDigit_not_ws (c : Char) (h : c.isDigit = true) : isPyWs c = false := by
  unfold isPyWs
  rw [not_beq_of_isDigit c ' ' h (by decide), not_beq_of_isDigit c '\t' h (by decide),
    not_beq_of_isDigit c '\n' h (by decide), not_beq_of_isDigit c '\r' h (by decide),
    not_beq_of_isDigit c '\x0b' h (by decide), not_beq_of_isDigit c '\x0c' h (by decide)]
  rfl

/-- Dropping whitespace from an all-digit character list is the identity. -/
lemma dropWhile_isPyWs_of_digits (cs : List Char) (h : cs.all Char.isDigit = true) :
    cs.dropWhile isPyWs = cs := by
  cases cs with
  | nil => rfl
  | cons c t =>
    have hc : c.isDigit = true := by
      rw [List.all_cons, Bool.and_eq_true] at h
      exact h.1
    rw [List.dropWhile_cons, isDigit_not_ws c hc]
    simp

/-- Stripping an all-digit string is the identity. -/
lemma pyStripChars_of_digits (cs : List Char) (h : cs.all Char.isDigit = true) :
    pyStripChars cs = cs := by
  unfold pyStripChars
  rw [dropWhile_isPyWs_of_digits cs h,
    dropWhile_isPyWs_of_digits cs.reverse (by simpa using h), List.reverse_reverse]

/-- Python `int` accepts every all-digit string, yielding its numeric
value. -/
lemma pyIntOfString_digits (s : String) (h : pyIsdigit s = true) :
    pyIntOfString s = some ((digitsToNat s.data : Nat) : Int) := by
  unfold pyIsdigit at h
  rw [Bool.and_eq_true] at h
  obtain ⟨hne, hall⟩ := h
  unfold pyIntOfString
  rw [pyStripChars_of_digits s.data hall]
  cases hd : s.data with
  | nil =>
    rw [hd] at hne
    exact Bool.noConfusion hne
  | cons c t =>
    rw [hd] at hall
    have hc : c.isDigit = true := by
      rw [List.all_cons, Bool.and_eq_true] at hall
      exact hall.1
    dsimp only
    rw [not_beq_of_isDigit c '-' hc (by decide), not_beq_of_isDigit c '+' hc (by decide)]
    simp [hall]

/-- `int` applied to a digit-string value. -/
lemma pyToInt_digits (s : String) (h : pyIsdigit s = true) :
    pyToInt (.pystr s) = some ((digitsToNat s.data : Nat) : Int) :=
  pyIntOfString_digits s h

/-- The sort key of a digit-string value is its numeric value. -/
lemma pyIntKey_digits (s : String) (h : pyIsdigit s = true) :
    pyIntKey (.pystr s) = ((digitsToNat s.data : Nat) : Int) := by
  unfold pyIntKey
  rw [pyToInt_digits s h]
  rfl

/-- Building the id-keyed dict over a well-formed roster with distinct
ids appends one pair per item. -/
lemma buildUser2Dict_wf (r2 : List (String × Bool)) :
    ∀ acc : List (PyVal × PyVal),
    (∀ p ∈ acc, ∀ q ∈ r2, pyEqb p.1 (.pystr q.1) = false) →
    (r2.map Prod.fst).Pairwise (· ≠ ·) →
    buildUser2Dict (r2.map itemDict) acc =
      some (acc ++ r2.map (fun p => (PyVal.pystr p.1, itemDict p))) := by
  induction r2 with
  | nil => intro acc _ _; simp [buildUser2Dict]
  | cons q rest ih =>
    intro acc hdisj hdist
    obtain ⟨s, b⟩ := q
    rw [List.map_cons, buildUser2Dict]
    have hup : pyDictUpsert acc (.pystr s) (itemDict (s, b)) =
        acc ++ [(.pystr s, itemDict (s, b))] := by
      unfold pyDictUpsert
      have hany : acc.any (fun p => pyEqb p.1 (.pystr s)) = false := by
        rw [List.any_eq_false]
        intro p hp
        simp [hdisj p hp (s, b) (List.mem_cons_self _ _)]
      rw [hany]
      simp
    show buildUser2Dict (List.map itemDict rest) (pyDictUpsert acc (.pystr s) (itemDict (s, b))) = _
    rw [hup]
    have hdisj2 : ∀ p ∈ acc ++ [(PyVal.pystr s, itemDict (s, b))], ∀ q ∈ rest,
        pyEqb p.1 (.pystr q.1) = false := by
      intro p hp q2 hq2
      rcases List.mem_append.mp hp with hpa | hpx
      · exact hdisj p hpa q2 (List.mem_cons_of_mem _ hq2)
      · have hpe : p = (PyVal.pystr s, itemDict (s, b)) := by simpa using hpx
        subst hpe
        rw [pyEqb_pystr_beq]
        have hne := (List.rel_of_pairwise_cons hdist) (List.mem_map_of_mem Prod.fst hq2)
        simpa using hne
    rw [ih (acc ++ [(PyVal.pystr s, itemDict (s, b))]) hdisj2 (List.Pairwise.of_cons hdist)]
    rw [List.map_cons, ← List.append_cons]

/-- Looking up a roster id in the built dict returns that roster item
(ids being distinct). -/
lemma user2DictOf_lookup (r2 : List (String × Bool))
    (hdist : (r2.map Prod.fst).Pairwise (· ≠ ·)) (s : String) (b : Bool)
    (hmem : (s, b) ∈ r2) :
    pyKeyLookup (user2DictOf r2) (.pystr s) = some (itemDict (s, b)) := by
  induction r2 with
  | nil => simp at hmem
  | cons q rest ih =>
    obtain ⟨s0, b0⟩ := q
    rw [user2DictOf, List.map_cons]
    rw [pyKeyLookup]
    by_cases hs : s0 = s
    · subst hs
      rw [if_pos (by rw [pyEqb_pystr_beq]; exact beq_self_eq_true s0)]
      rcases List.mem_cons.mp hmem with hh | ht
      · rw [(Prod.mk.injEq _ _ _ _).mp hh.symm |>.2]
      · exfalso
        have := (List.rel_of_pairwise_cons hdist) (List.mem_map_of_mem Prod.fst ht)
        exact this rfl
    · rw [if_neg (by rw [pyEqb_pystr_beq]; simp [hs])]
      rcases List.mem_cons.mp hmem with hh | ht
      · exact absurd ((Prod.mk.injEq _ _ _ _).mp hh.symm).1 hs
      · exact ih (List.Pairwise.of_cons hdist) ht

/-- Building the id set over a well-formed roster is the set fold of its
ids. -/
lemma buildIdSet_wf (r1 : List (String × Bool)) :
    ∀ acc, buildIdSet (r1.map itemDict) acc =
      some (r1.foldl (fun a p => pySetAdd a (.pystr p.1)) acc) := by
  induction r1 with
  | nil => intro acc; rfl
  | cons q rest ih =>
    intro acc
    obtain ⟨s, b⟩ := q
    rw [List.map_cons, buildIdSet]
    show buildIdSet (List.map itemDict rest) (pySetAdd acc (.pystr s)) = _
    rw [ih (pySetAdd acc (.pystr s))]
    rfl

/-- Set membership tests after the fold reduce to a test over the
original ids. -/
lemma setFold_any (r1 : List (String × Bool)) :
    ∀ (acc : List PyVal) (v : PyVal),
    ((r1.foldl (fun a p => pySetAdd a (.pystr p.1)) acc).any (fun w => pyEqb w v)) =
      (acc.any (fun w => pyEqb w v) || r1.any (fun p => pyEqb (.pystr p.1) v)) := by
  induction r1 with
  | nil => intro acc v; simp
  | cons q rest ih =>
    intro acc v
    obtain ⟨s, b⟩ := q
    rw [List.foldl_cons, ih]
    have hadd : (pySetAdd acc (.pystr s)).any (fun w => pyEqb w v) =
        (acc.any (fun w => pyEqb w v) || pyEqb (.pystr s) v) := by
      unfold pySetAdd
      cases hmem : acc.any (fun w => pyEqb w (.pystr s)) with
      | true =>
        rw [if_pos rfl]
        cases hsv : pyEqb (.pystr s) v with
        | false => simp
        | true =>
          have hv : v = .pystr s := (pyEqb_pystr_iff s v).mp hsv
          subst hv
          simp [hmem]
      | false =>
        rw [if_neg Bool.false_ne_true]
        simp [List.any_append]
    rw [hadd]
    simp [List.any_cons, Bool.or_assoc]

/-- The difference list the endpoint computes equals `diffIdsOf` for
well-formed rosters. -/
lemma diff_eq (r1 r2 : List (String × Bool)) :
    ((user2DictOf r2).map Prod.fst).filter
      (fun v => !((r1.foldl (fun a p => pySetAdd a (.pystr p.1)) []).any
        (fun w => pyEqb w v))) = diffIdsOf r1 r2 := by
  have hkeys : (user2DictOf r2).map Prod.fst = r2.map (fun p => PyVal.pystr p.1) := by
    rw [user2DictOf, List.map_map]
    rfl
  rw [hkeys, diffIdsOf]
  apply List.filter_congr
  intro v hv
  rw [setFold_any r1 [] v]
  simp

/-- Elements of the sorted difference are string ids of usuario2's roster
absent from usuario1's. -/
lemma sortedDiffOf_elem (r1 r2 : List (String × Bool)) (v : PyVal)
    (hv : v ∈ sortedDiffOf r1 r2) :
    ∃ s, v = .pystr s ∧ s ∈ r2.map Prod.fst ∧ s ∉ r1.map Prod.fst := by
  unfold sortedDiffOf at hv
  rw [List.mem_insertionSort] at hv
  unfold diffIdsOf at hv
  rw [List.mem_filter] at hv
  obtain ⟨hmem, hpred⟩ := hv
  rw [List.mem_map] at hmem
  obtain ⟨p, hp, hpe⟩ := hmem
  refine ⟨p.1, hpe.symm, List.mem_map_of_mem Prod.fst hp, ?_⟩
  intro hcon
  rw [List.mem_map] at hcon
  obtain ⟨p1, hp1, hpe1⟩ := hcon
  have : r1.any (fun q => pyEqb (.pystr q.1) v) = true := by
    rw [List.any_eq_true]
    refine ⟨p1, hp1, ?_⟩
    rw [hpe1, ← hpe]
    rw [pyEqb_pystr_beq]
    exact beq_self_eq_true p.1
  rw [this] at hpred
  exact Bool.noConfusion hpred

/-- Membership in the sorted difference characterizes exactly the ids of
usuario2 that usuario1 lacks. -/
lemma sortedDiffOf_mem (r1 r2 : List (String × Bool)) (s : String) :
    (.pystr s ∈ sortedDiffOf r1 r2) ↔ (s ∈ r2.map Prod.fst ∧ s ∉ r1.map Prod.fst) := by
  constructor
  · intro hv
    obtain ⟨s2, he, h2, h1⟩ := sortedDiffOf_elem r1 r2 (.pystr s) hv
    have : s2 = s := (PyVal.pystr.inj he).symm
    subst this
    exact ⟨h2, h1⟩
  · intro ⟨h2, h1⟩
    unfold sortedDiffOf
    rw [List.mem_insertionSort]
    unfold diffIdsOf
    rw [List.mem_filter]
    constructor
    · rw [List.mem_map] at h2 ⊢
      obtain ⟨p, hp, hpe⟩ := h2
      exact ⟨p, hp, by rw [hpe]⟩
    · show (!(r1.any fun q => pyEqb (.pystr q.1) (.pystr s))) = true
      have hfalse : (r1.any fun q => pyEqb (.pystr q.1) (.pystr s)) = false := by
        rw [List.any_eq_false]
        intro q hq
        rw [pyEqb_pystr_beq]
        cases hqe : q.1 == s with
        | false => simp
        | true =>
          intro _
          rw [beq_iff_eq] at hqe
          exact h1 (by rw [← hqe]; exact List.mem_map_of_mem Prod.fst hq)
      rw [hfalse]
      rfl

/-- The sorted difference is non-decreasing in the integer key. -/
lemma sortedDiffOf_sorted (r1 r2 : List (String × Bool)) :
    (sortedDiffOf r1 r2).Pairwise (fun a b => pyIntKey a ≤ pyIntKey b) := by
  haveI : IsTotal PyVal (fun a b => pyIntKey a ≤ pyIntKey b) := ⟨fun a b => Int.le_total _ _⟩
  haveI : IsTrans PyVal (fun a b => pyIntKey a ≤ pyIntKey b) := ⟨fun a b c => le_trans⟩
  exact List.sorted_insertionSort _ _

/-- With distinct ids whose numeric keys are injective, the sorted
difference is strictly increasing in the numeric id. -/
lemma sortedDiffOf_strict (r1 r2 : List (String × Bool))
    (hdist : (r2.map Prod.fst).Pairwise (fun a b => a ≠ b))
    (hinj : ∀ s1 s2, s1 ∈ r2.map Prod.fst → s2 ∈ r2.map Prod.fst →
      pyIntKey (.pystr s1) = pyIntKey (.pystr s2) → s1 = s2) :
    (sortedDiffOf r1 r2).Pairwise (fun a b => pyIntKey a < pyIntKey b) := by
  have hsorted := sortedDiffOf_sorted r1 r2
  have hdiff : (diffIdsOf r1 r2).Pairwise (fun a b : PyVal => a ≠ b) := by
    unfold diffIdsOf
    apply List.Pairwise.filter
    rw [List.pairwise_map]
    rw [List.pairwise_map] at hdist
    exact hdist.imp (fun h hcon => h (PyVal.pystr.inj hcon))
  have hne : (sortedDiffOf r1 r2).Pairwise (fun a b : PyVal => a ≠ b) := by
    have hperm := List.perm_insertionSort
      (fun a b : PyVal => pyIntKey a ≤ pyIntKey b) (diffIdsOf r1 r2)
    exact (hperm.pairwise_iff (fun h => h.symm)).mpr hdiff
  have hand := hsorted.and hne
  rw [List.pairwise_iff_forall_sublist] at hand ⊢
  intro a b hs
  obtain ⟨hle, hne2⟩ := hand hs
  have ha : a ∈ sortedDiffOf r1 r2 := hs.subset (List.mem_cons_self _ _)
  have hb : b ∈ sortedDiffOf r1 r2 :=
    hs.subset (List.mem_cons_of_mem _ (List.mem_cons_self _ _))
  obtain ⟨sa, hae, ha2, _⟩ := sortedDiffOf_elem r1 r2 a ha
  obtain ⟨sb, hbe, hb2, _⟩ := sortedDiffOf_elem r1 r2 b hb
  refine lt_of_le_of_ne hle ?_
  intro hkey
  apply hne2
  rw [hae, hbe]
  rw [hae, hbe] at hkey
  rw [hinj sa sb ha2 hb2 hkey]

/-- `sorted(..., key=int)` succeeds on the difference of digit-id
rosters and yields the sorted difference. -/
lemma sortedByInt_diff (r1 r2 : List (String × Bool))
    (hdigit : ∀ s ∈ r2.map Prod.fst, pyIsdigit s = true) :
    sortedByInt (diffIdsOf r1 r2) = some (sortedDiffOf r1 r2) := by
  unfold sortedByInt
  have hall : (diffIdsOf r1 r2).all (fun v => (pyToInt v).isSome) = true := by
    rw [List.all_eq_true]
    intro v hv
    have hv2 : v ∈ sortedDiffOf r1 r2 := by
      unfold sortedDiffOf
      rw [List.mem_insertionSort]
      exact hv
    obtain ⟨s, he, h2, _⟩ := sortedDiffOf_elem r1 r2 v hv2
    subst he
    rw [pyToInt_digits s (hdigit s h2)]
    rfl
  rw [hall]
  rfl

/-- Every entry the comparison loop emits for ids of usuario2 absent from
usuario1 is an `mkEntry` carrying usuario2's shiny flag for one such id. -/
lemma compareLoop_mem_shape (fenv : FetchEnv) (r1 r2 : List (String × Bool))
    (hdist : (r2.map Prod.fst).Pairwise (fun a b => a ≠ b)) :
    ∀ (l : List PyVal) (t : PokemonTable),
    (∀ v ∈ l, ∃ s, v = .pystr s ∧ s ∈ r2.map Prod.fst ∧ s ∉ r1.map Prod.fst) →
    ∀ e ∈ (compareLoop fenv t (user2DictOf r2) l).1,
      ∃ s b d, (s, b) ∈ r2 ∧ s ∉ r1.map Prod.fst ∧ e = mkEntry (.pybool b) d := by
  intro l
  induction l with
  | nil => intro t _ e he; simp [compareLoop] at he
  | cons idv rest ih =>
    intro t hwf e he
    have hwf2 : ∀ v ∈ rest, ∃ s, v = .pystr s ∧ s ∈ r2.map Prod.fst ∧ s ∉ r1.map Prod.fst :=
      fun v hv => hwf v (List.mem_cons_of_mem _ hv)
    obtain ⟨s, hse, hs2, hs1⟩ := hwf idv (List.mem_cons_self _ _)
    subst hse
    obtain ⟨p, hp, hpe⟩ := List.mem_map.mp hs2
    have hmem2 : (s, p.2) ∈ r2 := by
      rw [← hpe]
      exact hp
    have hlook := user2DictOf_lookup r2 hdist s p.2 hmem2
    rw [compareLoop] at he
    cases hint : pyToInt (.pystr s) with
    | none =>
      rw [hint] at he
      exact ih t hwf2 e he
    | some pid =>
      rw [hint] at he
      dsimp only at he
      cases hres : (fetch_pokemon_details fenv t pid).result with
      | none =>
        rw [hres] at he
        exact ih (fetch_pokemon_details fenv t pid).table hwf2 e he
      | some d =>
        rw [hres] at he
        dsimp only at he
        rw [hlook] at he
        dsimp only at he
        rw [if_pos (show pyTruthy (itemDict (s, p.2)) = true from rfl)] at he
        rw [show pyGetKey (itemDict (s, p.2)) "shiny" = some (.pybool p.2) from rfl] at he
        dsimp only at he
        rcases List.mem_cons.mp he with hh | ht
        · exact ⟨s, p.2, d, hmem2, hs1, hh⟩
        · exact ih (fetch_pokemon_details fenv t pid).table hwf2 e ht

/-- With both rosters obtained successfully and well-formed, the
comparison body reduces to the sorted-difference loop. -/
lemma compareMain_eq (env : AppEnv) (c u1 u2 : String) (r1 r2 : List (String × Bool))
    (hres1 : (get_or_scrape_user_dex_list env.scraper env.rows env.now
        (pyLower c) (pyLower u1) c u1 false).result = .pylist (r1.map itemDict))
    (hres2 : (get_or_scrape_user_dex_list env.scraper
        (get_or_scrape_user_dex_list env.scraper env.rows env.now
          (pyLower c) (pyLower u1) c u1 false).rows env.now
        (pyLower c) (pyLower u2) c u2 false).result = .pylist (r2.map itemDict))
    (hdist : (r2.map Prod.fst).Pairwise (fun a b => a ≠ b))
    (hdigit : ∀ s ∈ r2.map Prod.fst, pyIsdigit s = true) :
    compareMain env c u1 u2 = .resp 200 (.pydict
      [("canal", .pystr c), ("usuario_base", .pystr u1),
       ("usuario_comparado", .pystr u2),
       ("pokemon_que_faltam",
         .pylist (compareLoop env.fetchEnv env.table (user2DictOf r2)
           (sortedDiffOf r1 r2)).1)]) := by
  unfold compareMain
  have herr1 : isErrorDict (get_or_scrape_user_dex_list env.scraper env.rows env.now
      (pyLower c) (pyLower u1) c u1 false).result = false := by
    rw [hres1]
    rfl
  have herr2 : isErrorDict (get_or_scrape_user_dex_list env.scraper
      (get_or_scrape_user_dex_list env.scraper env.rows env.now
        (pyLower c) (pyLower u1) c u1 false).rows env.now
      (pyLower c) (pyLower u2) c u2 false).result = false := by
    rw [hres2]
    rfl
  have hit1 : pyIterItems (get_or_scrape_user_dex_list env.scraper env.rows env.now
      (pyLower c) (pyLower u1) c u1 false).result = some (r1.map itemDict) := by
    rw [hres1]
    rfl
  have hit2 : pyIterItems (get_or_scrape_user_dex_list env.scraper
      (get_or_scrape_user_dex_list env.scraper env.rows env.now
        (pyLower c) (pyLower u1) c u1 false).rows env.now
      (pyLower c) (pyLower u2) c u2 false).result = some (r2.map itemDict) := by
    rw [hres2]
    rfl
  dsimp only
  rw [herr1]
  simp only [Bool.false_eq_true, if_false]
  rw [herr2]
  simp only [Bool.false_eq_true, if_false]
  rw [hit1, hit2]
  dsimp only
  rw [buildUser2Dict_wf r2 [] (fun p hp => absurd hp (List.not_mem_nil p)) hdist,
    buildIdSet_wf r1 []]
  rw [show ([] ++ r2.map (fun p => (PyVal.pystr p.1, itemDict p)) : List (PyVal × PyVal)) =
    user2DictOf r2 from by rw [List.nil_append]; rfl]
  dsimp only
  rw [diff_eq r1 r2, sortedByInt_diff r1 r2 hdigit]

/-- C10: for successfully obtained, well-formed rosters (the scraper
shape: distinct digit ids with distinct numeric values), the comparison
endpoint returns 200 with `pokemon_que_faltam` produced by the detail
loop over the numerically sorted difference; the difference holds exactly
the ids usuario2 has and usuario1 lacks, in strictly increasing numeric
order; every returned record is built (with usuario2's shiny flag) for
such an id; and the loop emits an entry exactly when the detail fetch for
the id succeeds, omitting ids whose fetch returns None. -/
theorem C10_compare_dex_missing_details (env : AppEnv) (req : CompareRequest)
    (c u1 u2 : String) (r1 r2 : List (String × Bool))
    (hc : req.canal = some c) (hce : c.isEmpty = false)
    (hu1 : req.usuario1 = some u1) (hu1e : u1.isEmpty = false)
    (hu2 : req.usuario2 = some u2) (hu2e : u2.isEmpty = false)
    (hneq : (pyLower u1 == pyLower u2) = false)
    (hres1 : (get_or_scrape_user_dex_list env.scraper env.rows env.now
        (pyLower c) (pyLower u1) c u1 false).result = .pylist (r1.map itemDict))
    (hres2 : (get_or_scrape_user_dex_list env.scraper
        (get_or_scrape_user_dex_list env.scraper env.rows env.now
          (pyLower c) (pyLower u1) c u1 false).rows env.now
        (pyLower c) (pyLower u2) c u2 false).result = .pylist (r2.map itemDict))
    (hdist : (r2.map Prod.fst).Pairwise (fun a b => a ≠ b))
    (hdigit : ∀ s ∈ r2.map Prod.fst, pyIsdigit s = true)
    (hinj : ∀ s1 s2, s1 ∈ r2.map Prod.fst → s2 ∈ r2.map Prod.fst →
      pyIntKey (.pystr s1) = pyIntKey (.pystr s2) → s1 = s2) :
    compare_dex env req = .resp 200 (.pydict
      [("canal", .pystr c), ("usuario_base", .pystr u1),
       ("usuario_comparado", .pystr u2),
       ("pokemon_que_faltam",
         .pylist (compareLoop env.fetchEnv env.table (user2DictOf r2)
           (sortedDiffOf r1 r2)).1)])
    ∧ (∀ s, (.pystr s ∈ sortedDiffOf r1 r2) ↔
        (s ∈ r2.map Prod.fst ∧ s ∉ r1.map Prod.fst))
    ∧ (sortedDiffOf r1 r2).Pairwise (fun a b => pyIntKey a < pyIntKey b)
    ∧ (∀ e ∈ (compareLoop env.fetchEnv env.table (user2DictOf r2)
        (sortedDiffOf r1 r2)).1,
        ∃ s b d, (s, b) ∈ r2 ∧ s ∉ r1.map Prod.fst ∧ e = mkEntry (.pybool b) d)
    ∧ (∀ (t : PokemonTable) (idv : PyVal) (rest : List PyVal) (pid : Int),
        pyToInt idv = some pid →
        ((fetch_pokemon_details env.fetchEnv t pid).result = none →
          (compareLoop env.fetchEnv t (user2DictOf r2) (idv :: rest)).1 =
            (compareLoop env.fetchEnv t (user2DictOf r2) rest).1)
        ∧ (∀ d s b, (fetch_pokemon_details env.fetchEnv t pid).result = some d →
            idv = .pystr s → (s, b) ∈ r2 →
            (compareLoop env.fetchEnv t (user2DictOf r2) (idv :: rest)).1 =
              mkEntry (.pybool b) d ::
                (compareLoop env.fetchEnv (fetch_pokemon_details env.fetchEnv t pid).table
                  (user2DictOf r2) rest).1)) := by
  refine ⟨?_, fun s => sortedDiffOf_mem r1 r2 s, sortedDiffOf_strict r1 r2 hdist hinj,
    ?_, ?_⟩
  · unfold compare_dex
    rw [hc, hu1, hu2]
    dsimp only
    rw [hce, hu1e, hu2e]
    simp only [Bool.or_self, Bool.false_eq_true, if_false, Bool.or_false]
    rw [hneq]
    simp only [Bool.false_eq_true, if_false]
    exact compareMain_eq env c u1 u2 r1 r2 hres1 hres2 hdist hdigit
  · exact compareLoop_mem_shape env.fetchEnv r1 r2 hdist (sortedDiffOf r1 r2) env.table
      (fun v hv => sortedDiffOf_elem r1 r2 v hv)
  · intro t idv rest pid hint
    constructor
    · intro hnone
      rw [compareLoop, hint]
      dsimp only
      rw [hnone, fetch_none_table_unchanged env.fetchEnv t pid hnone]
    · intro d s b hsome hse hmem
      subst hse
      rw [compareLoop, hint]
      dsimp only
      rw [hsome]
      dsimp only
      rw [user2DictOf_lookup r2 hdist s b hmem]
      dsimp only
      rw [if_pos (show pyTruthy (itemDict (s, b)) = true from rfl)]
      rw [show pyGetKey (itemDict (s, b)) "shiny" = some (.pybool b) from rfl]

/-- Concrete roster of usuario1 for the comparison witness. -/
def cmpR1 : List (String × Bool) := [("1", false)]

/-- Concrete roster of usuario2 for the comparison witness. -/
def cmpR2 : List (String × Bool) := [("1", false), ("2", true), ("3", false)]

/-- Concrete environment for the comparison witness: the scraper yields
usuario1's roster for user "U1" and usuario2's otherwise; details come
from `sampleTable` (ids 1 and 2 cached, id 3 unknown to table and API). -/
def cmpEnv : AppEnv :=
  ⟨(fun _ u => if u == "U1" then .pylist (cmpR1.map itemDict)
      else .pylist (cmpR2.map itemDict)),
   (fun _ => none), 0, ⟨true, (fun _ => .apiError), true⟩, sampleTable⟩

/-- Concrete comparison request. -/
def cmpReq : CompareRequest := ⟨some "c", some "U1", some "U2"⟩

/-- Witness for C10 at concrete inputs: both rosters are obtained, the
endpoint returns the 200 payload whose `pokemon_que_faltam` is the loop
over the sorted difference, and "2" is in the difference exactly because
usuario2 has it and usuario1 does not. -/
theorem C10_witness :
    (get_or_scrape_user_dex_list cmpEnv.scraper cmpEnv.rows cmpEnv.now
        (pyLower "c") (pyLower "U1") "c" "U1" false).result = .pylist (cmpR1.map itemDict)
    ∧ (get_or_scrape_user_dex_list cmpEnv.scraper
        (get_or_scrape_user_dex_list cmpEnv.scraper cmpEnv.rows cmpEnv.now
          (pyLower "c") (pyLower "U1") "c" "U1" false).rows cmpEnv.now
        (pyLower "c") (pyLower "U2") "c" "U2" false).result = .pylist (cmpR2.map itemDict)
    ∧ compare_dex cmpEnv cmpReq = .resp 200 (.pydict
        [("canal", .pystr "c"), ("usuario_base", .pystr "U1"),
         ("usuario_comparado", .pystr "U2"),
         ("pokemon_que_faltam",
           .pylist (compareLoop cmpEnv.fetchEnv cmpEnv.table (user2DictOf cmpR2)
             (sortedDiffOf cmpR1 cmpR2)).1)])
    ∧ ((.pystr "2" ∈ sortedDiffOf cmpR1 cmpR2) ↔
        ("2" ∈ cmpR2.map Prod.fst ∧ "2" ∉ cmpR1.map Prod.fst)) := by
  have h := C10_compare_dex_missing_details cmpEnv cmpReq "c" "U1" "U2" cmpR1 cmpR2
    rfl rfl rfl rfl rfl rfl rfl rfl rfl
    (by decide) (by decide)
    (by
      intro s1 s2 h1 h2 hk
      simp only [cmpR2, List.map_cons, List.map_nil, List.mem_cons,
        List.not_mem_nil, or_false] at h1 h2
      rcases h1 with h1 | h1 | h1 <;> rcases h2 with h2 | h2 | h2 <;> subst h1 <;> subst h2 <;>
        first
        | rfl
        | (exfalso; revert hk; decide))
  exact ⟨rfl, rfl, h.1, h.2.1 "2"⟩

end ScrapBack
